import Mathlib

/-!
# sigchange: the watch loop of `sigchange.c`

A shallow embedding of `main`, `open_or_sleep`, `closefd` and
`check_condition` from `sigchange.c` (the non-`DEBUG` build).

The program talks to the operating system only through system calls.  The
answers of the operating system are an input of the model (`Env`): for each
kind of call a stream of answers, the `k`-th call of that kind receiving the
`k`-th answer.  Every call the program makes is appended to a chronological
trace (`St.trace`), so that statements about "what happens between two calls"
are statements about that list.

`open_or_sleep` contains the only inner loop that may run forever (the path
never becomes openable); it takes a bound on the number of `open` attempts and
returns `none` when the bound is reached.
-/

namespace Sigchange

/-! ## Constants -/

/-- Number of seconds to sleep on errors (`#define SLEEPTIME 10`). -/
def SLEEPTIME : Nat := 10

/-- Number of seconds to wait for kevent (`#define KQTIME 21600`). -/
def KQTIME : Nat := 21600

/-- Vnode event `NOTE_DELETE` of `<sys/event.h>`. -/
def NOTE_DELETE : Nat := 0x0001
/-- Vnode event `NOTE_WRITE` of `<sys/event.h>`. -/
def NOTE_WRITE : Nat := 0x0002
/-- Vnode event `NOTE_EXTEND` of `<sys/event.h>`. -/
def NOTE_EXTEND : Nat := 0x0004
/-- Vnode event `NOTE_RENAME` of `<sys/event.h>`. -/
def NOTE_RENAME : Nat := 0x0020
/-- Vnode event `NOTE_REVOKE` of `<sys/event.h>`. -/
def NOTE_REVOKE : Nat := 0x0040
/-- Vnode event `NOTE_TRUNCATE` of `<sys/event.h>`. -/
def NOTE_TRUNCATE : Nat := 0x0080
/-- Event flag `EV_ERROR` of `<sys/event.h>`. -/
def EV_ERROR : Nat := 0x4000
/-- Exit status `EX_USAGE` of `<sysexits.h>`. -/
def EX_USAGE : Int := 64
/-- Exit status `EX_OSERR` of `<sysexits.h>`. -/
def EX_OSERR : Int := 71

/-- The `fflags` given to `EV_SET` on line 108, and tested again on line 172:
`NOTE_DELETE|NOTE_WRITE|NOTE_EXTEND|NOTE_TRUNCATE|NOTE_RENAME|NOTE_REVOKE`. -/
def WATCHED : Nat :=
  NOTE_DELETE ||| NOTE_WRITE ||| NOTE_EXTEND ||| NOTE_TRUNCATE ||| NOTE_RENAME ||| NOTE_REVOKE

/-! ## Data model -/

/-- The syslog severities the program uses. -/
inductive Priority
  | LOG_ERR
  | LOG_WARNING
  | LOG_INFO
  deriving DecidableEq, Repr

/-- Answer of the operating system to one call: the return value, and the value
`errno` takes when the return value is `-1`. -/
structure SysRet where
  ret : Int
  errno : Int
  deriving DecidableEq, Repr

/-- The fields of `struct kevent` the program reads. -/
structure Kevent where
  flags : Nat
  fflags : Nat
  deriving DecidableEq, Repr

/-- Answer to the waiting `kevent` call of line 138: return value, `errno` on
failure, and the event stored in the event list when at least one is returned. -/
structure WaitRet where
  ret : Int
  errno : Int
  ev : Kevent
  deriving DecidableEq, Repr

/-- One call made by the process, with its arguments and (where the program
looks at it) its return value. -/
inductive Event
  /-- The call `signal(SIGCHLD, SIG_IGN)`. -/
  | signalIgnoreChild
  /-- The call `openlog(argv[0], ..., LOG_DAEMON)`. -/
  | openlog (ident : String)
  /-- The `printf` of the usage text. -/
  | printf (text : String)
  /-- The call `kqueue()`. -/
  | kqueue (ret : Int)
  /-- The call `close(fd)`. -/
  | close (fd : Int) (ret : Int)
  /-- The call `open(path, O_RDONLY)`. -/
  | openPath (path : String) (ret : Int)
  /-- The registration: `kevent(kq, &ev, 1, NULL, 0, NULL)` with `ev` set by
  `EV_SET(&ev, fd, EVFILT_VNODE, EV_ADD, fflags, 0, NULL)`. -/
  | keventAdd (kq : Int) (fd : Int) (fflags : Nat) (ret : Int)
  /-- The wait: `kevent(kq, NULL, 0, &ev, 1, &ts)` with `ts.tv_sec = timeout`. -/
  | keventWait (kq : Int) (timeout : Nat) (ret : Int)
  /-- The call `syslog(pri, ...)`, with the formatted message. -/
  | syslog (pri : Priority) (msg : String)
  /-- The call `sleep(secs)`. -/
  | sleep (secs : Nat)
  /-- The call `fork()`. -/
  | fork (ret : Int)
  /-- The call `execvp(file, args)`. -/
  | execvp (file : String) (args : List String)
  deriving DecidableEq, Repr

/-- Everything the program receives from outside: its argument vector, the
C library's `strerror`, and the answers of the operating system, the `k`-th
call of a kind receiving the `k`-th answer of that kind.  `execR k = none`
means the `k`-th `execvp` succeeds (and so never returns); `some e` means it
fails with `errno = e`. -/
structure Env where
  argv : List String
  strerror : Int → String
  kqueueR : SysRet
  openR : Nat → SysRet
  closeR : Nat → SysRet
  addR : Nat → SysRet
  waitR : Nat → WaitRet
  forkR : Nat → SysRet
  execR : Nat → Option Int

/-- The variables of `main` (`fd`, `kq`), `errno`, how many calls of each kind
were made so far, and the trace of all calls made so far, oldest first.
`fdAtOpen` is an observation, not a variable of the program: for each call of
`open` so far, oldest first, the value the variable `fd` of `main` held while
that call was made. -/
structure St where
  fd : Int
  kq : Int
  errno : Int
  nOpen : Nat
  nClose : Nat
  nAdd : Nat
  nWait : Nat
  nFork : Nat
  nExec : Nat
  fdAtOpen : List Int
  trace : List Event
  deriving DecidableEq, Repr

/-- How one pass through the body of `for (;;)` (or `main` as a whole) ends. -/
inductive Outcome
  /-- Control is back at the top of `for (;;)`. -/
  | running (s : St)
  /-- The process ended: `exit(status)` or `return status` from `main`. -/
  | exited (status : Int) (s : St)
  /-- The call `execvp` succeeded: the process now runs the command. -/
  | replaced (s : St)
  deriving DecidableEq, Repr

/-- The state an outcome carries. -/
def Outcome.state : Outcome → St
  | .running s => s
  | .exited _ s => s
  | .replaced s => s

/-- The argument count `argc`. -/
def Env.argc (env : Env) : Nat := env.argv.length

/-- The argument `argv[i]`. -/
def Env.arg (env : Env) (i : Nat) : String := env.argv.getD i ""

/-- The watched path, `argv[1]`. -/
def Env.path (env : Env) : String := env.arg 1

/-! ## Library calls without a result the program reads -/

/-- The call `syslog(pri, ...)`: one log line. -/
def syslog (s : St) (pri : Priority) (msg : String) : St :=
  { s with trace := s.trace ++ [Event.syslog pri msg] }

/-- The call `sleep(secs)`. -/
def sleep (s : St) (secs : Nat) : St :=
  { s with trace := s.trace ++ [Event.sleep secs] }

/-! ## The functions of `sigchange.c` -/

/-- Lines 221-230, `closefd(&fd)`: close the descriptor, warn when `close`
fails, and set it to `-1` either way. -/
def closefd (env : Env) (s : St) : St :=
  let r := env.closeR s.nClose
  let s1 : St := { s with
    nClose := s.nClose + 1
    errno := if r.ret = -1 then r.errno else s.errno
    trace := s.trace ++ [Event.close s.fd r.ret] }
  let s2 : St :=
    if r.ret = -1 then
      syslog s1 Priority.LOG_WARNING
        ("Unable to close fd " ++ toString s.fd ++ ": " ++ env.strerror s1.errno)
    else s1
  { s2 with fd := -1 }

/-- Lines 205-218, `open_or_sleep(path)`: `while (fd < 0)` around `open`, with a
warning and `sleep(SLEEPTIME)` after each `open` that returned `-1`.  The first
argument bounds the number of `open` attempts.  The `fd` of the C function is
a local of its own, here the value `r.ret` that is tested and returned; the
variable `fd` of `main` (`s.fd`) is not touched, and its value is noted in
`fdAtOpen` at each call of `open`. -/
def open_or_sleep (env : Env) (path : String) : Nat → St → Option (Int × St)
  | 0, _ => none
  | fuel + 1, s =>
    let r := env.openR s.nOpen
    let s1 : St := { s with
      nOpen := s.nOpen + 1
      errno := if r.ret = -1 then r.errno else s.errno
      fdAtOpen := s.fdAtOpen ++ [s.fd]
      trace := s.trace ++ [Event.openPath path r.ret] }
    if r.ret = -1 then
      open_or_sleep env path fuel
        (sleep
          (syslog s1 Priority.LOG_WARNING
            ("Sleeping " ++ toString SLEEPTIME ++ "s because open of " ++ path ++
              " failed: " ++ env.strerror s1.errno))
          SLEEPTIME)
    else if r.ret < 0 then
      open_or_sleep env path fuel s1
    else
      some (r.ret, s1)

/-- Lines 234-239, `check_condition(ev, condition, fname, message)`. -/
def check_condition (ev : Kevent) (condition : Nat) (fname message : String) (s : St) : St :=
  if ev.fflags &&& condition ≠ 0 then
    syslog s Priority.LOG_INFO (fname ++ " " ++ message)
  else s

/-- The macro `CC(c, m)`: `check_condition(ev, c, argv[1], m)`. -/
def CC (env : Env) (ev : Kevent) (c : Nat) (m : String) (s : St) : St :=
  check_condition ev c env.path m s

/-- Lines 95-106: close the descriptor if there is one, then
`fd = open_or_sleep(argv[1])`; `fuel` is the bound on the `open` attempts of
that call. -/
def acquire (env : Env) (fuel : Nat) (s : St) : Option St :=
  let s1 := if s.fd ≠ -1 then closefd env s else s
  match open_or_sleep env env.path fuel s1 with
  | none => none
  | some (fd, s2) => some { s2 with fd := fd }

/-- Lines 107-123: `EV_SET` and the registering `kevent`; when it returns `-1`,
a warning, `closefd(&fd)` and `sleep(SLEEPTIME)`.  Control then goes on to the
wait on line 138 in both cases. -/
def register (env : Env) (s : St) : St :=
  let r := env.addR s.nAdd
  let s1 : St := { s with
    nAdd := s.nAdd + 1
    errno := if r.ret = -1 then r.errno else s.errno
    trace := s.trace ++ [Event.keventAdd s.kq s.fd WATCHED r.ret] }
  if r.ret = -1 then
    sleep
      (closefd env
        (syslog s1 Priority.LOG_WARNING
          ("Sleeping " ++ toString SLEEPTIME ++ "s because setting watch on " ++ env.path ++
            " failed: " ++ env.strerror s1.errno)))
      SLEEPTIME
  else s1

/-- Lines 128-138: `ev` is zeroed and the waiting `kevent` is called with the
`KQTIME` timeout; it stores an event only when it returns a positive count. -/
def wait (env : Env) (s : St) : Int × Kevent × St :=
  let r := env.waitR s.nWait
  let s1 : St := { s with
    nWait := s.nWait + 1
    errno := if r.ret = -1 then r.errno else s.errno
    trace := s.trace ++ [Event.keventWait s.kq KQTIME r.ret] }
  let ev : Kevent := if 0 < r.ret then r.ev else { flags := 0, fflags := 0 }
  (r.ret, ev, s1)

/-- Lines 160-168: the log lines for what happened. -/
def logChanges (env : Env) (ev : Kevent) (s : St) : St :=
  let s0 :=
    if ev.fflags &&& NOTE_DELETE ≠ 0 then
      syslog s Priority.LOG_INFO (env.path ++ " was deleted")
    else s
  let s1 := CC env ev NOTE_DELETE "was deleted" s0
  let s2 := CC env ev NOTE_WRITE "was written" s1
  let s3 := CC env ev NOTE_EXTEND "was extended" s2
  let s4 := CC env ev NOTE_TRUNCATE "was truncated" s3
  let s5 := CC env ev NOTE_RENAME "was renamed" s4
  CC env ev NOTE_REVOKE "was disappeared" s5

/-- Lines 189-192, in the child after `execvp` returned:
`for (fd = 2; fd < argc; fd++) syslog(LOG_WARNING, "%i: %s", fd, argv[fd]);` -/
def logArguments (env : Env) (s : St) : St :=
  let s1 := (List.range' 2 (env.argc - 2)).foldl
    (fun (t : St) (i : Nat) =>
      syslog { t with fd := (i : Int) } Priority.LOG_WARNING
        (toString i ++ ": " ++ env.arg i))
    { s with fd := 2 }
  { s1 with fd := (max 2 env.argc : Nat) }

/-- Lines 172-199: run the command when one of the watched flags is set and a
command was given. -/
def spawn (env : Env) (ev : Kevent) (s : St) : Outcome :=
  if WATCHED &&& ev.fflags ≠ 0 ∧ 3 ≤ env.argc then
    let r := env.forkR s.nFork
    let s1 : St := { s with
      nFork := s.nFork + 1
      errno := if r.ret = -1 then r.errno else s.errno
      trace := s.trace ++ [Event.fork r.ret] }
    if r.ret = 0 then
      let s2 : St := { s1 with
        nExec := s1.nExec + 1
        trace := s1.trace ++ [Event.execvp (env.arg 2) (env.argv.drop 2)] }
      match env.execR s1.nExec with
      | none => Outcome.replaced s2
      | some e =>
        let s3 : St := { s2 with errno := e }
        let s4 := syslog s3 Priority.LOG_ERR
          ("Unable to execute command (arguments to) follow: " ++ env.strerror s3.errno)
        Outcome.exited (-2) (logArguments env s4)
    else if r.ret = -1 then
      Outcome.running
        (syslog s1 Priority.LOG_ERR
          ("Command not executed because forking failed: " ++ env.strerror s1.errno))
    else Outcome.running s1
  else Outcome.running s

/-- Lines 143-199: what the loop does with the result `ret`, `ev` of the wait. -/
def dispatch (env : Env) (ret : Int) (ev : Kevent) (s : St) : Outcome :=
  if ret = 0 then
    Outcome.running
      (syslog s Priority.LOG_INFO ("Still waiting for changes to " ++ env.path))
  else if EV_ERROR &&& ev.flags ≠ 0 ∨ ret = -1 then
    Outcome.running
      (closefd env
        (sleep
          (syslog s Priority.LOG_WARNING
            ("Sleeping " ++ toString SLEEPTIME ++ "s due to an error waiting for a change in " ++
              env.path ++ ": " ++ env.strerror s.errno))
          SLEEPTIME))
  else
    spawn env ev (logChanges env ev s)

/-- Lines 138-199: the wait and what follows it. -/
def waitAndDispatch (env : Env) (s : St) : Outcome :=
  let w := wait env s
  dispatch env w.1 w.2.1 w.2.2

/-- Lines 94-200: one pass through the body of `for (;;)`: acquire, register,
wait, dispatch; `none` when `open_or_sleep` used up its `fuel` attempts. -/
def body (env : Env) (fuel : Nat) (s : St) : Option Outcome :=
  match acquire env fuel s with
  | none => none
  | some s1 => some (waitAndDispatch env (register env s1))

/-- Lines 94-200: `iters` passes through `for (;;)`, stopping early when the
process ends. -/
def loop (env : Env) (fuel : Nat) : Nat → St → Option Outcome
  | 0, s => some (Outcome.running s)
  | iters + 1, s =>
    match body env fuel s with
    | none => none
    | some (Outcome.running s1) => loop env fuel iters s1
    | some o => some o

/-- Lines 242-245, `usage(argv0)`. -/
def usage (argv0 : String) (s : St) : St :=
  { s with trace := s.trace ++ [Event.printf ("Usage: " ++ argv0 ++ " file [command]\n")] }

/-- The state in which `main` starts. -/
def St.start : St :=
  { fd := 0, kq := 0, errno := 0, nOpen := 0, nClose := 0, nAdd := 0, nWait := 0,
    nFork := 0, nExec := 0, fdAtOpen := [], trace := [] }

/-- Lines 61-91: what `main` does before the loop; `Sum.inl` is the state at
the first entry of `for (;;)`, `Sum.inr` an early exit. -/
def startup (env : Env) : St ⊕ Outcome :=
  let s0 : St := { St.start with
    trace := [Event.signalIgnoreChild, Event.openlog (env.arg 0)] }
  if env.argc < 2 then
    Sum.inr (Outcome.exited EX_USAGE (usage (env.arg 0) s0))
  else
    let r := env.kqueueR
    let s1 : St := { s0 with
      kq := r.ret
      errno := if r.ret = -1 then r.errno else s0.errno
      trace := s0.trace ++ [Event.kqueue r.ret] }
    if r.ret = -1 then
      Sum.inr (Outcome.exited EX_OSERR
        (syslog s1 Priority.LOG_ERR ("Unable to create kqueue: " ++ env.strerror s1.errno)))
    else
      Sum.inl { s1 with fd := -1 }

/-- Lines 61-202, `main`, cut off after `iters` passes through the loop, each
call of `open_or_sleep` being given `fuel` attempts. -/
def main (env : Env) (fuel iters : Nat) : Option Outcome :=
  match startup env with
  | Sum.inr o => some o
  | Sum.inl s => loop env fuel iters s

/-! ## Reading traces -/

/-- An `open` call. -/
def Event.isOpen : Event → Bool
  | Event.openPath _ _ => true
  | _ => false

/-- A `close` call. -/
def Event.isClose : Event → Bool
  | Event.close _ _ => true
  | _ => false

/-- A registering `kevent` call. -/
def Event.isAdd : Event → Bool
  | Event.keventAdd _ _ _ _ => true
  | _ => false

/-- A `sleep` call. -/
def Event.isSleep : Event → Bool
  | Event.sleep _ => true
  | _ => false

/-- A `fork` call. -/
def Event.isFork : Event → Bool
  | Event.fork _ => true
  | _ => false

/-- An `execvp` call. -/
def Event.isExec : Event → Bool
  | Event.execvp _ _ => true
  | _ => false

/-- A log line of the given severity. -/
def Event.isLog (pri : Priority) : Event → Bool
  | Event.syslog p _ => decide (p = pri)
  | _ => false

/-- The calls one `closefd` makes when the variable holds `fd` and `k` calls of
`close` were made before: the `close`, and the warning when it fails. -/
def closefdEvents (env : Env) (fd : Int) (k : Nat) : List Event :=
  Event.close fd (env.closeR k).ret ::
    (if (env.closeR k).ret = -1 then
      [Event.syslog Priority.LOG_WARNING
        ("Unable to close fd " ++ toString fd ++ ": " ++ env.strerror (env.closeR k).errno)]
    else [])

/-- The warning `open_or_sleep` logs after a failed `open` that set `errno` to `e`. -/
def openWarning (env : Env) (path : String) (e : Int) : Event :=
  Event.syslog Priority.LOG_WARNING
    ("Sleeping " ++ toString SLEEPTIME ++ "s because open of " ++ path ++ " failed: " ++
      env.strerror e)

/-- The calls of `n` rounds of `open_or_sleep` in which `open` returns `-1`,
the first of them being the `k`-th `open` call of the process. -/
def retryEvents (env : Env) (path : String) : Nat → Nat → List Event
  | _, 0 => []
  | k, n + 1 =>
    Event.openPath path (-1) :: openWarning env path (env.openR k).errno ::
      Event.sleep SLEEPTIME :: retryEvents env path (k + 1) n

/-- The value of `errno` after `n` failed `open` calls starting with the `k`-th. -/
def retryErrno (env : Env) : Nat → Nat → Int → Int
  | _, 0, e => e
  | k, n + 1, _ => retryErrno env (k + 1) n (env.openR k).errno

/-- The log lines of lines 160-168 for an event, oldest first. -/
def changeLines (env : Env) (ev : Kevent) : List Event :=
  (if ev.fflags &&& NOTE_DELETE ≠ 0 then
    [Event.syslog Priority.LOG_INFO (env.path ++ " was deleted")] else []) ++
  (if ev.fflags &&& NOTE_DELETE ≠ 0 then
    [Event.syslog Priority.LOG_INFO (env.path ++ " " ++ "was deleted")] else []) ++
  (if ev.fflags &&& NOTE_WRITE ≠ 0 then
    [Event.syslog Priority.LOG_INFO (env.path ++ " " ++ "was written")] else []) ++
  (if ev.fflags &&& NOTE_EXTEND ≠ 0 then
    [Event.syslog Priority.LOG_INFO (env.path ++ " " ++ "was extended")] else []) ++
  (if ev.fflags &&& NOTE_TRUNCATE ≠ 0 then
    [Event.syslog Priority.LOG_INFO (env.path ++ " " ++ "was truncated")] else []) ++
  (if ev.fflags &&& NOTE_RENAME ≠ 0 then
    [Event.syslog Priority.LOG_INFO (env.path ++ " " ++ "was renamed")] else []) ++
  (if ev.fflags &&& NOTE_REVOKE ≠ 0 then
    [Event.syslog Priority.LOG_INFO (env.path ++ " " ++ "was disappeared")] else [])

/-- The six change flags with their descriptions, in the order deleted, written,
extended, truncated, renamed, revoked. -/
def categories : List (Nat × String) :=
  [(NOTE_DELETE, "was deleted"), (NOTE_WRITE, "was written"), (NOTE_EXTEND, "was extended"),
    (NOTE_TRUNCATE, "was truncated"), (NOTE_RENAME, "was renamed"),
    (NOTE_REVOKE, "was disappeared")]

/-- One line `<path> <description>` for each of the six flags set in `fflags`,
each once, in the order of `categories`. -/
def oneLinePerFlag (path : String) (fflags : Nat) : List Event :=
  (categories.filter (fun c => decide (fflags &&& c.1 ≠ 0))).map
    (fun c => Event.syslog Priority.LOG_INFO (path ++ " " ++ c.2))

/-- The warnings listing the command arguments `argv[2..argc-1]` (lines 189-192). -/
def argumentLines (env : Env) : List Event :=
  (List.range' 2 (env.argc - 2)).map
    (fun i => Event.syslog Priority.LOG_WARNING (toString i ++ ": " ++ env.arg i))

/-- The handles open after a call, given the handles open before it: a
successful `open` adds the descriptor it returns, a `close` (that is, each
`closefd`) releases its argument. -/
def heldAfter (hs : List Int) : Event → List Int
  | Event.openPath _ r => if 0 ≤ r then r :: hs else hs
  | Event.close fd _ => hs.erase fd
  | _ => hs

/-- The handles open after a trace, given the handles open before it. -/
def held (hs : List Int) (t : List Event) : List Int :=
  t.foldl heldAfter hs

/-- The single-handle discipline along a trace that starts with the handles
`hs` open: at every point at most one handle is open, `open` is called only
while none is open, and a registration names the one handle that is open. -/
def singleHandle : List Int → List Event → Prop
  | hs, [] => hs.length ≤ 1
  | hs, e :: t =>
    hs.length ≤ 1 ∧
    (match e with
      | Event.openPath _ _ => hs = []
      | Event.keventAdd _ fd _ _ => hs = [fd]
      | _ => True) ∧
    singleHandle (heldAfter hs e) t

/-- The calls of lines 107-123 when `fd` is registered on `kq`, `ka` registering
calls and `kc` calls of `close` having been made before: the registering
`kevent`, and when it returns `-1` the warning, the calls of `closefd` and
`sleep(SLEEPTIME)`. -/
def registerEvents (env : Env) (kq fd : Int) (ka kc : Nat) : List Event :=
  Event.keventAdd kq fd WATCHED (env.addR ka).ret ::
    (if (env.addR ka).ret = -1 then
      Event.syslog Priority.LOG_WARNING
          ("Sleeping " ++ toString SLEEPTIME ++ "s because setting watch on " ++ env.path ++
            " failed: " ++ env.strerror (env.addR ka).errno) ::
        (closefdEvents env fd kc ++ [Event.sleep SLEEPTIME])
    else [])

/-- The calls of lines 172-199 for an event, `kf` calls of `fork` and `ke`
calls of `execvp` having been made before. -/
def spawnEvents (env : Env) (ev : Kevent) (kf ke : Nat) : List Event :=
  if WATCHED &&& ev.fflags ≠ 0 ∧ 3 ≤ env.argc then
    Event.fork (env.forkR kf).ret ::
      (if (env.forkR kf).ret = 0 then
        Event.execvp (env.arg 2) (env.argv.drop 2) ::
          (match env.execR ke with
            | none => []
            | some e =>
              Event.syslog Priority.LOG_ERR
                  ("Unable to execute command (arguments to) follow: " ++ env.strerror e) ::
                argumentLines env)
      else if (env.forkR kf).ret = -1 then
        [Event.syslog Priority.LOG_ERR
          ("Command not executed because forking failed: " ++
            env.strerror (env.forkR kf).errno)]
      else [])
  else []

/-- A call `open_or_sleep` makes before the `open` that succeeds: an `open`
with a negative result, a log line or a `sleep`. -/
def Event.isRetry : Event → Bool
  | Event.openPath _ r => decide (r < 0)
  | Event.syslog _ _ => true
  | Event.sleep _ => true
  | _ => false

/-- A call that neither opens, closes nor registers a handle. -/
def Event.isNeutral : Event → Bool
  | Event.openPath _ _ => false
  | Event.close _ _ => false
  | Event.keventAdd _ _ _ _ => false
  | _ => true

/-- The link between the handle variable and the handles open after the trace,
together with the single-handle discipline along the trace so far. -/
def HandleInv (s : St) : Prop :=
  singleHandle [] s.trace ∧ held [] s.trace = (if s.fd = -1 then [] else [s.fd])

/-- The variable `fd` of `main` held `-1` during every call of `open` so far,
and `fdAtOpen` has one entry for each call of `open` in the trace. -/
def OpenInv (s : St) : Prop :=
  (∀ v ∈ s.fdAtOpen, v = -1) ∧ s.fdAtOpen.length = s.trace.countP Event.isOpen

/-! ## Concrete environments -/

/-- A rendering of `strerror` for the error numbers used in the examples
(`ENOENT` 2, `EINTR` 4, `EIO` 5, `EBADF` 9, `ENOMEM` 12, `EAGAIN` 35). -/
def strerrorExample (e : Int) : String :=
  if e = 2 then "No such file or directory"
  else if e = 4 then "Interrupted system call"
  else if e = 5 then "Input/output error"
  else if e = 9 then "Bad file descriptor"
  else if e = 12 then "Cannot allocate memory"
  else if e = 35 then "Resource temporarily unavailable"
  else "Unknown error"

/-- Invoked as `sigchange /tmp/f`; every call succeeds (`kqueue` returns 3,
`open` returns 4) and every wait times out. -/
def envQuiet : Env :=
  { argv := ["sigchange", "/tmp/f"]
    strerror := strerrorExample
    kqueueR := ⟨3, 0⟩
    openR := fun _ => ⟨4, 0⟩
    closeR := fun _ => ⟨0, 0⟩
    addR := fun _ => ⟨0, 0⟩
    waitR := fun _ => ⟨0, 0, ⟨0, 0⟩⟩
    forkR := fun _ => ⟨100, 0⟩
    execR := fun _ => none }

/-- As `envQuiet`, but every wait returns one event with `NOTE_DELETE` and
`NOTE_WRITE` set. -/
def envDeleted : Env :=
  { envQuiet with waitR := fun _ => ⟨1, 0, ⟨0, NOTE_DELETE ||| NOTE_WRITE⟩⟩ }

/-- Invoked as `sigchange /tmp/f reload -v`; every wait returns one event with
`NOTE_WRITE` set, and this process is the parent of each `fork` (child 100). -/
def envCommand : Env :=
  { envQuiet with
    argv := ["sigchange", "/tmp/f", "reload", "-v"]
    waitR := fun _ => ⟨1, 0, ⟨0, NOTE_WRITE⟩⟩ }

/-- As `envCommand`, but `fork` fails with `EAGAIN`. -/
def envForkFails : Env :=
  { envCommand with forkR := fun _ => ⟨-1, 35⟩ }

/-- As `envCommand`, seen from the child of the `fork`, in which `execvp`
fails with `ENOENT`. -/
def envExecFails : Env :=
  { envCommand with forkR := fun _ => ⟨0, 0⟩, execR := fun _ => some 2 }

/-- As `envQuiet`, but the wait fails with `EINTR` and `close` fails with `EIO`. -/
def envWaitError : Env :=
  { envQuiet with waitR := fun _ => ⟨-1, 4, ⟨0, 0⟩⟩, closeR := fun _ => ⟨-1, 5⟩ }

/-- As `envQuiet`, but the first registration fails with `ENOMEM`; the waits
time out. -/
def envAddFails : Env :=
  { envQuiet with addR := fun k => if k = 0 then ⟨-1, 12⟩ else ⟨0, 0⟩ }

/-- As `envAddFails`, but the wait that follows fails with `EINTR` (later
waits time out), and the second `close`, of descriptor `-1`, fails with
`EBADF`. -/
def envAddFailsWaitFails : Env :=
  { envAddFails with
    waitR := fun k => if k = 0 then ⟨-1, 4, ⟨0, 0⟩⟩ else ⟨0, 0, ⟨0, 0⟩⟩
    closeR := fun k => if k = 1 then ⟨-1, 9⟩ else ⟨0, 0⟩ }

/-- As `envQuiet`, but the first two calls of `open` fail with `ENOENT` and the
third returns descriptor 5. -/
def envRetry : Env :=
  { envQuiet with openR := fun k => if k < 2 then ⟨-1, 2⟩ else ⟨5, 0⟩ }

/-- The state in which `main` reaches its first wait when `kqueue` returned 3,
`open` returned 4 at once and the registration succeeded. -/
def armed : St :=
  { fd := 4, kq := 3, errno := 0, nOpen := 1, nClose := 0, nAdd := 1, nWait := 0,
    nFork := 0, nExec := 0, fdAtOpen := [-1],
    trace := [Event.signalIgnoreChild, Event.openlog "sigchange", Event.kqueue 3,
      Event.openPath "/tmp/f" 4, Event.keventAdd 3 4 WATCHED 0] }

/-- The state in which `main` enters `for (;;)` for the first time when
`kqueue` returned 3. -/
def atLoopTop : St :=
  { fd := -1, kq := 3, errno := 0, nOpen := 0, nClose := 0, nAdd := 0, nWait := 0,
    nFork := 0, nExec := 0, fdAtOpen := [],
    trace := [Event.signalIgnoreChild, Event.openlog "sigchange", Event.kqueue 3] }

/-- The state of the watcher `sigchange /tmp/f reload -v` (environment
`envCommand`) after the written event received in state `armed`: the lines of
the event were logged and `fork` returned child 100. -/
def afterWrite : St :=
  { armed with
    nWait := 1
    nFork := 1
    trace := armed.trace ++
      [Event.keventWait 3 KQTIME 1, Event.syslog Priority.LOG_INFO "/tmp/f was written",
        Event.fork 100] }

/-- The state `afterWrite` once the next pass has closed descriptor 4 and opened
the path again. -/
def reacquired : St :=
  { afterWrite with
    nOpen := 2
    nClose := 1
    fdAtOpen := [-1, -1]
    trace := afterWrite.trace ++ [Event.close 4 0, Event.openPath "/tmp/f" 4] }

/-- The state of `sigchange /tmp/f` (environment `envQuiet`) after two passes
through the loop, both ending in a timeout. -/
def afterTwoHeartbeats : St :=
  { fd := 4, kq := 3, errno := 0, nOpen := 2, nClose := 1, nAdd := 2, nWait := 2,
    nFork := 0, nExec := 0, fdAtOpen := [-1, -1],
    trace := [Event.signalIgnoreChild, Event.openlog "sigchange", Event.kqueue 3,
      Event.openPath "/tmp/f" 4, Event.keventAdd 3 4 WATCHED 0,
      Event.keventWait 3 KQTIME 0,
      Event.syslog Priority.LOG_INFO "Still waiting for changes to /tmp/f",
      Event.close 4 0,
      Event.openPath "/tmp/f" 4, Event.keventAdd 3 4 WATCHED 0,
      Event.keventWait 3 KQTIME 0,
      Event.syslog Priority.LOG_INFO "Still waiting for changes to /tmp/f"] }

/-- The calls `sigchange /tmp/f` makes in environment `envAddFailsWaitFails`
after the registration that failed and before the next `open`. -/
def afterFailedRegistration : List Event :=
  [Event.syslog Priority.LOG_WARNING
      "Sleeping 10s because setting watch on /tmp/f failed: Cannot allocate memory",
    Event.close 4 0,
    Event.sleep 10,
    Event.keventWait 3 KQTIME (-1),
    Event.syslog Priority.LOG_WARNING
      "Sleeping 10s due to an error waiting for a change in /tmp/f: Interrupted system call",
    Event.sleep 10,
    Event.close (-1) (-1),
    Event.syslog Priority.LOG_WARNING "Unable to close fd -1: Bad file descriptor"]

/-! ## Basic facts about the functions -/

theorem closefd_eq (env : Env) (s : St) :
    closefd env s = { s with
      fd := -1
      nClose := s.nClose + 1
      errno := if (env.closeR s.nClose).ret = -1 then (env.closeR s.nClose).errno else s.errno
      trace := s.trace ++ closefdEvents env s.fd s.nClose } := by
  unfold closefd closefdEvents syslog
  by_cases h : (env.closeR s.nClose).ret = -1 <;> simp [h]

theorem open_or_sleep_eq (env : Env) (path : String) (h : Int) (hh : 0 ≤ h) :
    ∀ (n fuel : Nat) (s : St),
      (∀ i, i < n → (env.openR (s.nOpen + i)).ret = -1) →
      (env.openR (s.nOpen + n)).ret = h → n < fuel →
      open_or_sleep env path fuel s = some (h, { s with
        nOpen := s.nOpen + n + 1
        errno := retryErrno env s.nOpen n s.errno
        fdAtOpen := s.fdAtOpen ++ List.replicate (n + 1) s.fd
        trace := s.trace ++ retryEvents env path s.nOpen n ++ [Event.openPath path h] }) := by
  intro n
  induction n with
  | zero =>
    intro fuel s _ hok hfuel
    obtain ⟨f, rfl⟩ : ∃ f, fuel = f + 1 := ⟨fuel - 1, by omega⟩
    have hr : (env.openR s.nOpen).ret = h := by simpa using hok
    have h1 : ¬ (h = -1) := by omega
    have h2 : ¬ (h < 0) := by omega
    simp [open_or_sleep, hr, h1, h2, retryErrno, retryEvents]
  | succ n ih =>
    intro fuel s hfail hok hfuel
    obtain ⟨f, rfl⟩ : ∃ f, fuel = f + 1 := ⟨fuel - 1, by omega⟩
    have hr : (env.openR s.nOpen).ret = -1 := by simpa using hfail 0 (by omega)
    simp only [open_or_sleep, hr, if_true]
    rw [ih f _ ?_ ?_ (by omega)]
    · simp [sleep, syslog, retryErrno, retryEvents, openWarning, Nat.add_assoc, Nat.add_comm 1 n,
        List.replicate_succ]
    · intro i hi
      have := hfail (i + 1) (by omega)
      simpa [sleep, syslog, Nat.add_assoc, Nat.add_comm 1 i] using this
    · simpa [sleep, syslog, Nat.add_assoc, Nat.add_comm 1 n] using hok

theorem retryEvents_counts (env : Env) (path : String) :
    ∀ (n k : Nat),
      (retryEvents env path k n).countP Event.isOpen = n ∧
      (retryEvents env path k n).countP (Event.isLog Priority.LOG_WARNING) = n ∧
      (retryEvents env path k n).countP Event.isSleep = n ∧
      (retryEvents env path k n).length = 3 * n ∧
      (∀ e ∈ retryEvents env path k n, e.isSleep = true → e = Event.sleep SLEEPTIME) := by
  intro n
  induction n with
  | zero => intro k; simp [retryEvents]
  | succ n ih =>
    intro k
    obtain ⟨h1, h2, h3, h4, h5⟩ := ih (k + 1)
    refine ⟨?_, ?_, ?_, ?_, ?_⟩
    · simp [retryEvents, List.countP_cons, h1, Event.isOpen, openWarning]
    · simp [retryEvents, List.countP_cons, h2, Event.isLog, openWarning]
    · simp [retryEvents, List.countP_cons, h3, Event.isSleep, openWarning]
    · simp [retryEvents, h4]; omega
    · intro e he hs
      simp only [retryEvents, List.mem_cons] at he
      rcases he with rfl | rfl | rfl | he
      · simp [Event.isSleep] at hs
      · simp [Event.isSleep, openWarning] at hs
      · rfl
      · exact h5 e he hs

theorem nat_or_eq_zero (a b : Nat) : a ||| b = 0 ↔ a = 0 ∧ b = 0 := by
  constructor
  · intro h
    have hb : ∀ i, (a ||| b).testBit i = false := by simp [h]
    constructor <;> apply Nat.eq_of_testBit_eq <;> intro i <;> have := hb i <;>
      simp [Nat.testBit_or] at this <;> simp [this]
  · rintro ⟨rfl, rfl⟩
    simp

theorem nat_or_and (a b f : Nat) : (a ||| b) &&& f = (f &&& a) ||| (f &&& b) := by
  rw [Nat.and_comm, Nat.and_or_distrib_left]

/-- The test of line 172 holds exactly when one of the six flags is set. -/
theorem watched_iff (f : Nat) :
    WATCHED &&& f ≠ 0 ↔ ∃ c ∈ categories, f &&& c.1 ≠ 0 := by
  have h : WATCHED &&& f = 0 ↔
      f &&& NOTE_DELETE = 0 ∧ f &&& NOTE_WRITE = 0 ∧ f &&& NOTE_EXTEND = 0 ∧
        f &&& NOTE_TRUNCATE = 0 ∧ f &&& NOTE_RENAME = 0 ∧ f &&& NOTE_REVOKE = 0 := by
    unfold WATCHED
    simp only [nat_or_and, Nat.and_or_distrib_left, nat_or_eq_zero, and_assoc]
  rw [Ne, h]
  simp only [categories, List.mem_cons, List.mem_singleton, exists_eq_or_imp, exists_eq_left,
    List.not_mem_nil, false_and, exists_false, or_false]
  tauto

theorem check_condition_eq (ev : Kevent) (c : Nat) (fname message : String) (s : St) :
    check_condition ev c fname message s = { s with
      trace := s.trace ++
        (if ev.fflags &&& c ≠ 0 then [Event.syslog Priority.LOG_INFO (fname ++ " " ++ message)]
          else []) } := by
  unfold check_condition syslog
  by_cases h : ev.fflags &&& c = 0 <;> simp [h]

theorem logChanges_eq (env : Env) (ev : Kevent) (s : St) :
    logChanges env ev s = { s with trace := s.trace ++ changeLines env ev } := by
  unfold logChanges CC changeLines
  simp only [check_condition_eq]
  by_cases h : ev.fflags &&& NOTE_DELETE = 0 <;> simp [h, syslog, List.append_assoc]

theorem foldl_syslog_trace (env : Env) :
    ∀ (l : List Nat) (t : St),
      (l.foldl
        (fun (t : St) (i : Nat) =>
          syslog { t with fd := (i : Int) } Priority.LOG_WARNING
            (toString i ++ ": " ++ env.arg i)) t).trace =
        t.trace ++ l.map
          (fun i => Event.syslog Priority.LOG_WARNING (toString i ++ ": " ++ env.arg i)) := by
  intro l
  induction l with
  | nil => intro t; simp
  | cons i l ih =>
    intro t
    rw [List.foldl_cons, ih]
    simp [syslog]

theorem logArguments_trace (env : Env) (s : St) :
    (logArguments env s).trace = s.trace ++ argumentLines env := by
  unfold logArguments argumentLines
  simp only [foldl_syslog_trace]

theorem spawn_trace (env : Env) (ev : Kevent) (s : St) :
    (spawn env ev s).state.trace = s.trace ++ spawnEvents env ev s.nFork s.nExec := by
  unfold spawn spawnEvents
  by_cases hc : WATCHED &&& ev.fflags ≠ 0 ∧ 3 ≤ env.argc
  · rw [if_pos hc, if_pos hc]
    by_cases h0 : (env.forkR s.nFork).ret = 0
    · simp only [h0, if_true]
      cases hx : env.execR s.nExec with
      | none => simp [Outcome.state]
      | some e => simp [Outcome.state, logArguments_trace, syslog]
    · by_cases h1 : (env.forkR s.nFork).ret = -1
      · simp [h0, h1, Outcome.state, syslog]
      · simp [h0, h1, Outcome.state]
  · rw [if_neg hc, if_neg hc]
    simp [Outcome.state]

/-- When `spawn` leaves the process in the loop, only `errno`, the count of
`fork` calls and the trace have changed. -/
theorem spawn_running (env : Env) (ev : Kevent) (s s1 : St)
    (h : spawn env ev s = Outcome.running s1) :
    s1.fd = s.fd ∧ s1.kq = s.kq ∧ s1.nOpen = s.nOpen ∧ s1.nClose = s.nClose ∧
      s1.nAdd = s.nAdd ∧ s1.nWait = s.nWait ∧
      s1.trace = s.trace ++ spawnEvents env ev s.nFork s.nExec ∧
      (∀ e ∈ spawnEvents env ev s.nFork s.nExec, e.isNeutral = true) := by
  unfold spawn at h
  unfold spawnEvents
  by_cases hc : WATCHED &&& ev.fflags ≠ 0 ∧ 3 ≤ env.argc
  · rw [if_pos hc] at h ⊢
    by_cases h0 : (env.forkR s.nFork).ret = 0
    · simp only [h0, if_true] at h
      cases hx : env.execR s.nExec <;> simp [hx] at h
    · by_cases h1 : (env.forkR s.nFork).ret = -1
      · rw [if_neg h0, if_pos h1, Outcome.running.injEq] at h
        subst h
        simp [syslog, Event.isNeutral, h1]
      · rw [if_neg h0, if_neg h1, Outcome.running.injEq] at h
        subst h
        simp [Event.isNeutral, h0, h1]
  · rw [if_neg hc] at h ⊢
    simp only [Outcome.running.injEq] at h
    subst h
    simp

theorem changeLines_neutral (env : Env) (ev : Kevent) :
    ∀ e ∈ changeLines env ev, e.isNeutral = true := by
  intro e he
  unfold changeLines at he
  simp only [List.mem_append] at he
  rcases he with (((((he | he) | he) | he) | he) | he) | he <;>
    · split at he
      · simp only [List.mem_singleton] at he
        subst he
        rfl
      · simp at he

theorem register_trace (env : Env) (s : St) :
    (register env s).trace = s.trace ++ registerEvents env s.kq s.fd s.nAdd s.nClose := by
  unfold register registerEvents
  by_cases h : (env.addR s.nAdd).ret = -1
  · simp [h, sleep, closefd_eq, syslog]
  · simp [h]

/-- What `register` leaves in the variables and counters. -/
theorem register_frame (env : Env) (s : St) :
    (register env s).kq = s.kq ∧ (register env s).nOpen = s.nOpen ∧
      (register env s).nWait = s.nWait ∧
      (register env s).fd = (if (env.addR s.nAdd).ret = -1 then -1 else s.fd) := by
  unfold register
  by_cases h : (env.addR s.nAdd).ret = -1
  · simp [h, sleep, closefd_eq, syslog]
  · simp [h]

theorem changeLines_eq (env : Env) (ev : Kevent) :
    changeLines env ev =
      (if ev.fflags &&& NOTE_DELETE ≠ 0 then
        [Event.syslog Priority.LOG_INFO (env.path ++ " " ++ "was deleted")] else []) ++
        oneLinePerFlag env.path ev.fflags := by
  have hs : env.path ++ " was deleted" = env.path ++ " " ++ "was deleted" := by
    rw [String.append_assoc]; rfl
  unfold changeLines oneLinePerFlag categories
  rw [hs]
  by_cases h1 : ev.fflags &&& NOTE_DELETE = 0 <;> by_cases h2 : ev.fflags &&& NOTE_WRITE = 0 <;>
    by_cases h3 : ev.fflags &&& NOTE_EXTEND = 0 <;>
    by_cases h4 : ev.fflags &&& NOTE_TRUNCATE = 0 <;>
    by_cases h5 : ev.fflags &&& NOTE_RENAME = 0 <;>
    by_cases h6 : ev.fflags &&& NOTE_REVOKE = 0 <;>
    simp [h1, h2, h3, h4, h5, h6]

theorem changeLines_info (env : Env) (ev : Kevent) :
    ∀ e ∈ changeLines env ev, e.isLog Priority.LOG_INFO = true := by
  intro e he
  unfold changeLines at he
  simp only [List.mem_append] at he
  rcases he with (((((he | he) | he) | he) | he) | he) | he <;>
    · split at he
      · simp only [List.mem_singleton] at he
        subst he
        rfl
      · simp at he

theorem countP_eq_zero_of_forall {α : Type} (p q : α → Bool) (l : List α)
    (h : ∀ e ∈ l, q e = true) (hpq : ∀ e, q e = true → p e = false) :
    l.countP p = 0 := by
  rw [List.countP_eq_zero]
  intro e he
  simp [hpq e (h e he)]

theorem dispatch_event (env : Env) (ret : Int) (ev : Kevent) (s : St)
    (htimeout : ret ≠ 0) (herror : ¬ (EV_ERROR &&& ev.flags ≠ 0 ∨ ret = -1)) :
    dispatch env ret ev s = spawn env ev { s with trace := s.trace ++ changeLines env ev } := by
  unfold dispatch
  rw [if_neg htimeout, if_neg herror, logChanges_eq]

/-- The calls of `acquire` when the first `n` calls of `open` return `-1` and
the next returns `h ≥ 0`. -/
theorem acquire_eq (env : Env) (s : St) (n fuel : Nat) (h : Int) (hh : 0 ≤ h)
    (hfail : ∀ i, i < n → (env.openR (s.nOpen + i)).ret = -1)
    (hok : (env.openR (s.nOpen + n)).ret = h) (hfuel : n < fuel) :
    ∃ s2, acquire env fuel s = some s2 ∧ s2.fd = h ∧ s2.kq = s.kq ∧ s2.nAdd = s.nAdd ∧
      s2.nClose = s.nClose + (if s.fd ≠ -1 then 1 else 0) ∧
      s2.trace = s.trace ++ (if s.fd ≠ -1 then closefdEvents env s.fd s.nClose else []) ++
        retryEvents env env.path s.nOpen n ++ [Event.openPath env.path h] := by
  unfold acquire
  by_cases hfd : s.fd ≠ -1
  · simp only [if_pos hfd]
    rw [open_or_sleep_eq env env.path h hh n fuel (closefd env s)
      (by simpa [closefd_eq] using hfail) (by simpa [closefd_eq] using hok) hfuel]
    exact ⟨_, rfl, rfl, by simp [closefd_eq], by simp [closefd_eq], by simp [closefd_eq],
      by simp [closefd_eq]⟩
  · simp only [if_neg hfd]
    rw [open_or_sleep_eq env env.path h hh n fuel s hfail hok hfuel]
    exact ⟨_, rfl, rfl, rfl, rfl, by simp, by simp⟩

theorem body_eq (env : Env) (fuel : Nat) (s s2 : St) (h : acquire env fuel s = some s2) :
    body env fuel s = some (waitAndDispatch env (register env s2)) := by
  unfold body
  rw [h]

theorem waitAndDispatch_timeout (env : Env) (s : St) (h : (env.waitR s.nWait).ret = 0) :
    waitAndDispatch env s = Outcome.running { s with
      nWait := s.nWait + 1
      trace := s.trace ++ [Event.keventWait s.kq KQTIME 0,
        Event.syslog Priority.LOG_INFO ("Still waiting for changes to " ++ env.path)] } := by
  unfold waitAndDispatch wait dispatch
  simp [h, syslog]

theorem waitAndDispatch_error (env : Env) (s : St) (htimeout : (wait env s).1 ≠ 0)
    (herror : EV_ERROR &&& (wait env s).2.1.flags ≠ 0 ∨ (wait env s).1 = -1) :
    waitAndDispatch env s = Outcome.running { s with
      fd := -1
      nWait := s.nWait + 1
      nClose := s.nClose + 1
      errno := (closefd env (wait env s).2.2).errno
      trace := s.trace ++
        [Event.keventWait s.kq KQTIME (wait env s).1,
          Event.syslog Priority.LOG_WARNING
            ("Sleeping " ++ toString SLEEPTIME ++ "s due to an error waiting for a change in " ++
              env.path ++ ": " ++ env.strerror (wait env s).2.2.errno),
          Event.sleep SLEEPTIME] ++ closefdEvents env s.fd s.nClose } := by
  unfold waitAndDispatch dispatch
  rw [if_neg htimeout, if_pos herror]
  simp [closefd_eq, sleep, syslog, wait]

/-- Whenever `open_or_sleep` returns, it returns a descriptor `h ≥ 0`, the last
call it made is the `open` that returned `h`, and before that it made only
failed `open` calls, log lines and sleeps. -/
theorem open_or_sleep_some (env : Env) (path : String) :
    ∀ (fuel : Nat) (s : St) (h : Int) (s1 : St),
      open_or_sleep env path fuel s = some (h, s1) →
      0 ≤ h ∧ s1.fd = s.fd ∧ s1.kq = s.kq ∧ s1.nClose = s.nClose ∧ s1.nAdd = s.nAdd ∧
        s1.nWait = s.nWait ∧
        ∃ seg, s1.trace = s.trace ++ seg ++ [Event.openPath path h] ∧
          ∀ e ∈ seg, e.isRetry = true := by
  intro fuel
  induction fuel with
  | zero => intro s h s1 hs; simp [open_or_sleep] at hs
  | succ f ih =>
    intro s h s1 hs
    unfold open_or_sleep at hs
    simp only at hs
    by_cases h1 : (env.openR s.nOpen).ret = -1
    · rw [if_pos h1] at hs
      obtain ⟨g0, g1, g2, g3, g4, g5, seg, g6, g7⟩ := ih _ h s1 hs
      refine ⟨g0, by simpa [sleep, syslog] using g1, by simpa [sleep, syslog] using g2,
        by simpa [sleep, syslog] using g3, by simpa [sleep, syslog] using g4,
        by simpa [sleep, syslog] using g5, ?_⟩
      refine ⟨Event.openPath path (env.openR s.nOpen).ret ::
        Event.syslog Priority.LOG_WARNING
          ("Sleeping " ++ toString SLEEPTIME ++ "s because open of " ++ path ++
            " failed: " ++ env.strerror (env.openR s.nOpen).errno) ::
        Event.sleep SLEEPTIME :: seg, ?_, ?_⟩
      · rw [g6]
        simp [sleep, syslog, h1]
      · intro e he
        simp only [List.mem_cons] at he
        rcases he with rfl | rfl | rfl | he
        · simp [Event.isRetry, h1]
        · rfl
        · rfl
        · exact g7 e he
    · rw [if_neg h1] at hs
      by_cases h2 : (env.openR s.nOpen).ret < 0
      · rw [if_pos h2] at hs
        obtain ⟨g0, g1, g2, g3, g4, g5, seg, g6, g7⟩ := ih _ h s1 hs
        refine ⟨g0, g1, g2, g3, g4, g5, Event.openPath path (env.openR s.nOpen).ret :: seg,
          ?_, ?_⟩
        · rw [g6]
          simp
        · intro e he
          simp only [List.mem_cons] at he
          rcases he with rfl | he
          · simp [Event.isRetry, h2]
          · exact g7 e he
      · rw [if_neg h2] at hs
        simp only [Option.some.injEq, Prod.mk.injEq] at hs
        obtain ⟨rfl, rfl⟩ := hs
        exact ⟨by omega, rfl, rfl, rfl, rfl, rfl, [], by simp, by simp⟩

/-- Whenever `acquire` returns, the handle variable holds the descriptor
`h ≥ 0` of the last call, an `open`; before it come the calls of `closefd` when
a handle was held, then only failed `open` calls, log lines and sleeps. -/
theorem acquire_some (env : Env) (fuel : Nat) (s s2 : St)
    (h : acquire env fuel s = some s2) :
    0 ≤ s2.fd ∧ s2.kq = s.kq ∧ s2.nAdd = s.nAdd ∧ s2.nWait = s.nWait ∧
      ∃ seg, s2.trace = s.trace ++
          (if s.fd ≠ -1 then closefdEvents env s.fd s.nClose else []) ++ seg ++
          [Event.openPath env.path s2.fd] ∧
        ∀ e ∈ seg, e.isRetry = true := by
  unfold acquire at h
  simp only at h
  cases ho : open_or_sleep env env.path fuel (if s.fd ≠ -1 then closefd env s else s) with
  | none => rw [ho] at h; simp at h
  | some p =>
    obtain ⟨fd, s1⟩ := p
    rw [ho] at h
    simp only [Option.some.injEq] at h
    subst h
    obtain ⟨g0, _, g2, _, g4, g5, seg, g6, g7⟩ := open_or_sleep_some env env.path fuel _ fd s1 ho
    by_cases hfd : s.fd ≠ -1
    · simp only [if_pos hfd] at g2 g4 g5 g6 ⊢
      exact ⟨g0, by simpa [closefd_eq] using g2, by simpa [closefd_eq] using g4,
        by simpa [closefd_eq] using g5, seg, by simpa [closefd_eq] using g6, g7⟩
    · simp only [if_neg hfd] at g2 g4 g5 g6 ⊢
      exact ⟨g0, g2, g4, g5, seg, by simpa using g6, g7⟩

theorem spawnEvents_neutral (env : Env) (ev : Kevent) (kf ke : Nat) :
    ∀ e ∈ spawnEvents env ev kf ke, e.isNeutral = true := by
  intro e he
  unfold spawnEvents at he
  split at he
  · simp only [List.mem_cons] at he
    rcases he with rfl | he
    · rfl
    · split at he
      · simp only [List.mem_cons] at he
        rcases he with rfl | he
        · rfl
        · split at he
          · simp at he
          · simp only [List.mem_cons] at he
            rcases he with rfl | he
            · rfl
            · unfold argumentLines at he
              simp only [List.mem_map] at he
              obtain ⟨i, _, rfl⟩ := he
              rfl
      · split at he
        · simp only [List.mem_singleton] at he
          subst he
          rfl
        · simp at he
  · simp at he

theorem waitAndDispatch_event (env : Env) (s : St) (htimeout : (wait env s).1 ≠ 0)
    (herror : ¬ (EV_ERROR &&& (wait env s).2.1.flags ≠ 0 ∨ (wait env s).1 = -1)) :
    waitAndDispatch env s = spawn env (wait env s).2.1
      { s with
        nWait := s.nWait + 1
        errno := (wait env s).2.2.errno
        trace := s.trace ++ Event.keventWait s.kq KQTIME (env.waitR s.nWait).ret ::
          changeLines env (wait env s).2.1 } := by
  unfold waitAndDispatch
  simp only
  rw [dispatch_event env _ _ _ htimeout herror]
  simp [wait]

/-! ## The single-handle discipline -/

theorem singleHandle_length (t : List Event) (hs : List Int) (h : singleHandle hs t) :
    hs.length ≤ 1 := by
  cases t with
  | nil => simpa [singleHandle] using h
  | cons e t => exact (by simpa [singleHandle] using h : _ ∧ _).1

theorem held_append (hs : List Int) (t1 t2 : List Event) :
    held hs (t1 ++ t2) = held (held hs t1) t2 := by
  unfold held
  rw [List.foldl_append]

theorem singleHandle_append :
    ∀ (t1 t2 : List Event) (hs : List Int),
      singleHandle hs (t1 ++ t2) ↔ singleHandle hs t1 ∧ singleHandle (held hs t1) t2 := by
  intro t1
  induction t1 with
  | nil =>
    intro t2 hs
    constructor
    · intro h
      exact ⟨by simpa [singleHandle] using singleHandle_length _ _ h, by simpa [held] using h⟩
    · intro h
      simpa [held] using h.2
  | cons e t1 ih =>
    intro t2 hs
    have hh : held hs (e :: t1) = held (heldAfter hs e) t1 := by simp [held]
    rw [List.cons_append, hh]
    simp only [singleHandle, ih]
    tauto

theorem heldAfter_neutral (hs : List Int) (e : Event) (h : e.isNeutral = true) :
    heldAfter hs e = hs := by
  cases e <;> simp_all [Event.isNeutral, heldAfter]

theorem neutral_held :
    ∀ (t : List Event) (hs : List Int), (∀ e ∈ t, e.isNeutral = true) → held hs t = hs := by
  intro t
  induction t with
  | nil => intro hs _; rfl
  | cons e t ih =>
    intro hs h
    have hh : held hs (e :: t) = held (heldAfter hs e) t := by simp [held]
    rw [hh, heldAfter_neutral hs e (h e (by simp)), ih hs (fun a ha => h a (by simp [ha]))]

theorem neutral_single :
    ∀ (t : List Event) (hs : List Int), (∀ e ∈ t, e.isNeutral = true) → hs.length ≤ 1 →
      singleHandle hs t := by
  intro t
  induction t with
  | nil => intro hs _ hl; simpa [singleHandle] using hl
  | cons e t ih =>
    intro hs h hl
    have he := h e (by simp)
    simp only [singleHandle]
    refine ⟨hl, ?_, ?_⟩
    · clear h ih hl
      cases e <;> simp_all [Event.isNeutral]
    · rw [heldAfter_neutral hs e he]
      exact ih hs (fun a ha => h a (by simp [ha])) hl

theorem retry_held :
    ∀ (t : List Event), (∀ e ∈ t, e.isRetry = true) → held [] t = [] := by
  intro t
  induction t with
  | nil => intro _; rfl
  | cons e t ih =>
    intro h
    have he := h e (by simp)
    have hh : held [] (e :: t) = held (heldAfter [] e) t := by simp [held]
    have h1 : heldAfter [] e = [] := by
      clear h ih
      cases e <;> simp_all [Event.isRetry, heldAfter]
    rw [hh, h1]
    exact ih (fun a ha => h a (by simp [ha]))

theorem retry_single :
    ∀ (t : List Event), (∀ e ∈ t, e.isRetry = true) → singleHandle [] t := by
  intro t
  induction t with
  | nil => intro _; simp [singleHandle]
  | cons e t ih =>
    intro h
    have he := h e (by simp)
    have h1 : heldAfter [] e = [] := by
      clear h ih
      cases e <;> simp_all [Event.isRetry, heldAfter]
    simp only [singleHandle]
    refine ⟨by simp, ?_, ?_⟩
    · clear h ih h1
      cases e <;> simp_all [Event.isRetry]
    · rw [h1]
      exact ih (fun a ha => h a (by simp [ha]))

theorem closefdEvents_held (env : Env) (fd : Int) (k : Nat) (hs : List Int) :
    held hs (closefdEvents env fd k) = hs.erase fd := by
  unfold closefdEvents
  by_cases h : (env.closeR k).ret = -1 <;> simp [h, held, heldAfter]

theorem closefdEvents_single (env : Env) (fd : Int) (k : Nat) (hs : List Int)
    (hl : hs.length ≤ 1) : singleHandle hs (closefdEvents env fd k) := by
  have he : (hs.erase fd).length ≤ 1 := le_trans (List.length_erase_le _ _) hl
  unfold closefdEvents
  by_cases h : (env.closeR k).ret = -1 <;> simp [h, singleHandle, heldAfter, hl, he]

theorem handle_list_length (fd : Int) :
    (if fd = -1 then ([] : List Int) else [fd]).length ≤ 1 := by
  split <;> simp

theorem handle_list_erase (fd : Int) :
    (if fd = -1 then ([] : List Int) else [fd]).erase fd = [] := by
  split <;> simp

theorem inv_acquire (env : Env) (fuel : Nat) (s s2 : St) (hinv : HandleInv s)
    (h : acquire env fuel s = some s2) : HandleInv s2 ∧ s2.fd ≠ -1 := by
  obtain ⟨g0, _, _, _, seg, gtrace, gseg⟩ := acquire_some env fuel s s2 h
  obtain ⟨hs, hh⟩ := hinv
  have hne : s2.fd ≠ -1 := by omega
  have hclosed : held [] (s.trace ++
      (if s.fd ≠ -1 then closefdEvents env s.fd s.nClose else [])) = [] := by
    rw [held_append, hh]
    by_cases hfd : s.fd = -1
    · simp [hfd, held]
    · simp [hfd, closefdEvents_held]
  have hsingle : singleHandle [] (s.trace ++
      (if s.fd ≠ -1 then closefdEvents env s.fd s.nClose else [])) := by
    rw [singleHandle_append, hh]
    refine ⟨hs, ?_⟩
    by_cases hfd : s.fd = -1
    · simp [hfd, singleHandle]
    · simpa [hfd] using closefdEvents_single env s.fd s.nClose [s.fd] (by simp)
  have hseg_single : singleHandle [] (s.trace ++
      (if s.fd ≠ -1 then closefdEvents env s.fd s.nClose else []) ++ seg) :=
    (singleHandle_append _ _ _).2 ⟨hsingle, by rw [hclosed]; exact retry_single seg gseg⟩
  have hseg_held : held [] (s.trace ++
      (if s.fd ≠ -1 then closefdEvents env s.fd s.nClose else []) ++ seg) = [] := by
    rw [held_append, hclosed]
    exact retry_held seg gseg
  refine ⟨⟨?_, ?_⟩, hne⟩
  · rw [gtrace]
    refine (singleHandle_append _ _ _).2 ⟨hseg_single, ?_⟩
    rw [hseg_held]
    simp [singleHandle, heldAfter, g0]
  · rw [gtrace, held_append, hseg_held]
    simp [held, heldAfter, g0, hne]

theorem inv_register (env : Env) (s : St) (hinv : HandleInv s) (hfd : s.fd ≠ -1) :
    HandleInv (register env s) := by
  obtain ⟨hs, hh⟩ := hinv
  rw [if_neg hfd] at hh
  obtain ⟨_, _, _, gfd⟩ := register_frame env s
  unfold HandleInv
  rw [register_trace, singleHandle_append, held_append, hh, gfd]
  by_cases hr : (env.addR s.nAdd).ret = -1
  · have e1 : registerEvents env s.kq s.fd s.nAdd s.nClose =
        [Event.keventAdd s.kq s.fd WATCHED (env.addR s.nAdd).ret,
          Event.syslog Priority.LOG_WARNING
            ("Sleeping " ++ toString SLEEPTIME ++ "s because setting watch on " ++ env.path ++
              " failed: " ++ env.strerror (env.addR s.nAdd).errno)] ++
          (closefdEvents env s.fd s.nClose ++ [Event.sleep SLEEPTIME]) := by
      simp [registerEvents, hr]
    have hc : held [s.fd] (closefdEvents env s.fd s.nClose) = [] := by
      rw [closefdEvents_held]
      simp
    have hc1 := closefdEvents_single env s.fd s.nClose [s.fd] (by simp)
    have h2 : held [s.fd] [Event.keventAdd s.kq s.fd WATCHED (env.addR s.nAdd).ret,
          Event.syslog Priority.LOG_WARNING
            ("Sleeping " ++ toString SLEEPTIME ++ "s because setting watch on " ++ env.path ++
              " failed: " ++ env.strerror (env.addR s.nAdd).errno)] = [s.fd] := by
      simp [held, heldAfter]
    rw [e1, if_pos hr]
    refine ⟨⟨hs, ?_⟩, ?_⟩
    · refine (singleHandle_append _ _ _).2 ⟨by simp [singleHandle, heldAfter], ?_⟩
      rw [h2]
      refine (singleHandle_append _ _ _).2 ⟨hc1, ?_⟩
      rw [hc]
      simp [singleHandle, heldAfter]
    · rw [held_append, h2, held_append, hc]
      simp [held, heldAfter]
  · have e1 : registerEvents env s.kq s.fd s.nAdd s.nClose =
        [Event.keventAdd s.kq s.fd WATCHED (env.addR s.nAdd).ret] := by
      simp [registerEvents, hr]
    rw [e1, if_neg hr]
    refine ⟨⟨hs, by simp [singleHandle, heldAfter]⟩, ?_⟩
    simp [held, heldAfter, hfd]

theorem inv_waitAndDispatch (env : Env) (s : St) (hinv : HandleInv s) :
    singleHandle [] (waitAndDispatch env s).state.trace ∧
      ∀ s1, waitAndDispatch env s = Outcome.running s1 → HandleInv s1 := by
  obtain ⟨hs, hh⟩ := hinv
  have hl : (held [] s.trace).length ≤ 1 := by rw [hh]; exact handle_list_length s.fd
  by_cases htimeout : (wait env s).1 = 0
  · have h0 : (env.waitR s.nWait).ret = 0 := htimeout
    rw [waitAndDispatch_timeout env s h0]
    have hn : ∀ e ∈ [Event.keventWait s.kq KQTIME 0,
        Event.syslog Priority.LOG_INFO ("Still waiting for changes to " ++ env.path)],
        e.isNeutral = true := by
      intro e he
      simp only [List.mem_cons, List.mem_singleton, List.not_mem_nil, or_false] at he
      rcases he with rfl | rfl <;> rfl
    have h1 : HandleInv { s with
        nWait := s.nWait + 1
        trace := s.trace ++ [Event.keventWait s.kq KQTIME 0,
          Event.syslog Priority.LOG_INFO ("Still waiting for changes to " ++ env.path)] } := by
      refine ⟨?_, ?_⟩
      · rw [singleHandle_append]
        exact ⟨hs, neutral_single _ _ hn hl⟩
      · rw [held_append, neutral_held _ _ hn, hh]
    refine ⟨h1.1, ?_⟩
    intro s1 hs1
    rw [Outcome.running.injEq] at hs1
    subst hs1
    exact h1
  · by_cases herror : EV_ERROR &&& (wait env s).2.1.flags ≠ 0 ∨ (wait env s).1 = -1
    · rw [waitAndDispatch_error env s htimeout herror]
      have hn : ∀ e ∈ [Event.keventWait s.kq KQTIME (wait env s).1,
          Event.syslog Priority.LOG_WARNING
            ("Sleeping " ++ toString SLEEPTIME ++ "s due to an error waiting for a change in " ++
              env.path ++ ": " ++ env.strerror (wait env s).2.2.errno),
          Event.sleep SLEEPTIME], e.isNeutral = true := by
        intro e he
        simp only [List.mem_cons, List.mem_singleton, List.not_mem_nil, or_false] at he
        rcases he with rfl | rfl | rfl <;> rfl
      have h1 : HandleInv { s with
          fd := -1
          nWait := s.nWait + 1
          nClose := s.nClose + 1
          errno := (closefd env (wait env s).2.2).errno
          trace := s.trace ++
            [Event.keventWait s.kq KQTIME (wait env s).1,
              Event.syslog Priority.LOG_WARNING
                ("Sleeping " ++ toString SLEEPTIME ++
                  "s due to an error waiting for a change in " ++
                  env.path ++ ": " ++ env.strerror (wait env s).2.2.errno),
              Event.sleep SLEEPTIME] ++ closefdEvents env s.fd s.nClose } := by
        refine ⟨?_, ?_⟩
        · rw [singleHandle_append, singleHandle_append, held_append, neutral_held _ _ hn]
          exact ⟨⟨hs, neutral_single _ _ hn hl⟩, closefdEvents_single env _ _ _ hl⟩
        · rw [held_append, held_append, neutral_held _ _ hn, closefdEvents_held, hh,
            handle_list_erase]
          simp
      refine ⟨h1.1, ?_⟩
      intro s1 hs1
      rw [Outcome.running.injEq] at hs1
      subst hs1
      exact h1
    · rw [waitAndDispatch_event env s htimeout herror]
      have hn : ∀ e ∈ Event.keventWait s.kq KQTIME (env.waitR s.nWait).ret ::
          changeLines env (wait env s).2.1, e.isNeutral = true := by
        intro e he
        simp only [List.mem_cons] at he
        rcases he with rfl | he
        · rfl
        · exact changeLines_neutral env _ e he
      have hsp := spawnEvents_neutral env (wait env s).2.1 s.nFork s.nExec
      constructor
      · rw [spawn_trace, singleHandle_append, singleHandle_append, held_append,
          neutral_held _ _ hn]
        exact ⟨⟨hs, neutral_single _ _ hn hl⟩, neutral_single _ _ hsp hl⟩
      · intro s1 hs1
        obtain ⟨k1, _, _, _, _, _, k7, _⟩ := spawn_running env _ _ s1 hs1
        refine ⟨?_, ?_⟩
        · rw [k7, singleHandle_append, singleHandle_append, held_append, neutral_held _ _ hn]
          exact ⟨⟨hs, neutral_single _ _ hn hl⟩, neutral_single _ _ hsp hl⟩
        · rw [k7, held_append, held_append, neutral_held _ _ hn, neutral_held _ _ hsp, hh, k1]

theorem inv_body (env : Env) (fuel : Nat) (s : St) (o : Outcome) (hinv : HandleInv s)
    (h : body env fuel s = some o) :
    singleHandle [] o.state.trace ∧ ∀ s1, o = Outcome.running s1 → HandleInv s1 := by
  unfold body at h
  cases ha : acquire env fuel s with
  | none => simp [ha] at h
  | some s2 =>
    rw [ha] at h
    simp only [Option.some.injEq] at h
    subst h
    obtain ⟨h2, hne⟩ := inv_acquire env fuel s s2 hinv ha
    exact inv_waitAndDispatch env _ (inv_register env s2 h2 hne)

theorem inv_loop (env : Env) (fuel : Nat) :
    ∀ (iters : Nat) (s : St) (o : Outcome), HandleInv s → loop env fuel iters s = some o →
      singleHandle [] o.state.trace ∧ ∀ s1, o = Outcome.running s1 → HandleInv s1 := by
  intro iters
  induction iters with
  | zero =>
    intro s o hinv h
    simp only [loop, Option.some.injEq] at h
    subst h
    refine ⟨hinv.1, ?_⟩
    intro s1 hs1
    rw [Outcome.running.injEq] at hs1
    subst hs1
    exact hinv
  | succ n ih =>
    intro s o hinv h
    unfold loop at h
    cases hb : body env fuel s with
    | none => simp [hb] at h
    | some o1 =>
      have hbody := inv_body env fuel s o1 hinv hb
      rw [hb] at h
      cases o1 with
      | running s1 => exact ih s1 o (hbody.2 s1 rfl) h
      | exited c s1 =>
        simp only [Option.some.injEq] at h
        subst h
        exact hbody
      | replaced s1 =>
        simp only [Option.some.injEq] at h
        subst h
        exact hbody

theorem inv_startup (env : Env) :
    (∀ s, startup env = Sum.inl s → HandleInv s) ∧
      (∀ o, startup env = Sum.inr o →
        singleHandle [] o.state.trace ∧ ∀ s1, o ≠ Outcome.running s1) := by
  unfold startup
  simp only
  by_cases h2 : env.argc < 2
  · rw [if_pos h2]
    refine ⟨by intro s hs; simp at hs, ?_⟩
    intro o ho
    simp only [Sum.inr.injEq] at ho
    subst ho
    exact ⟨by simp [Outcome.state, usage, singleHandle, heldAfter], by intro s1; simp⟩
  · rw [if_neg h2]
    by_cases hk : env.kqueueR.ret = -1
    · rw [if_pos hk]
      refine ⟨by intro s hs; simp at hs, ?_⟩
      intro o ho
      simp only [Sum.inr.injEq] at ho
      subst ho
      exact ⟨by simp [Outcome.state, syslog, St.start, singleHandle, heldAfter],
        by intro s1; simp⟩
    · rw [if_neg hk]
      refine ⟨?_, by intro o ho; simp at ho⟩
      intro s hs
      simp only [Sum.inl.injEq] at hs
      subst hs
      exact ⟨by simp [St.start, singleHandle, heldAfter], by simp [St.start, held, heldAfter]⟩

/-- The calls from a wait that does not time out to the next registration, when
a handle is open during the wait. -/
theorem refresh_when_handle_open (env : Env) (s s1 s2 : St) (fuel : Nat)
    (hfd : s.fd ≠ -1)
    (hret : (env.waitR s.nWait).ret ≠ 0)
    (hrun : waitAndDispatch env s = Outcome.running s1)
    (hacq : acquire env fuel s1 = some s2) :
    ∃ before between r h,
      (register env s2).trace =
        s.trace ++ Event.keventWait s.kq KQTIME (env.waitR s.nWait).ret :: before ++
          Event.close s.fd r :: between ++
          Event.openPath env.path h :: registerEvents env s.kq h s2.nAdd s2.nClose ∧
      0 ≤ h ∧ s2.fd = h ∧
      (∀ e ∈ before, e.isNeutral = true) ∧
      (∀ e ∈ between, e.isRetry = true) := by
  have htimeout : (wait env s).1 ≠ 0 := hret
  obtain ⟨g0, gkq, _, _, seg, gtrace, gseg⟩ := acquire_some env fuel s1 s2 hacq
  by_cases herror : EV_ERROR &&& (wait env s).2.1.flags ≠ 0 ∨ (wait env s).1 = -1
  · rw [waitAndDispatch_error env s htimeout herror, Outcome.running.injEq] at hrun
    subst hrun
    simp only [ne_eq, not_true_eq_false, if_false, List.append_nil] at gtrace
    refine ⟨[Event.syslog Priority.LOG_WARNING
        ("Sleeping " ++ toString SLEEPTIME ++ "s due to an error waiting for a change in " ++
          env.path ++ ": " ++ env.strerror (wait env s).2.2.errno),
        Event.sleep SLEEPTIME],
      (if (env.closeR s.nClose).ret = -1 then
        [Event.syslog Priority.LOG_WARNING
          ("Unable to close fd " ++ toString s.fd ++ ": " ++
            env.strerror (env.closeR s.nClose).errno)]
      else []) ++ seg,
      (env.closeR s.nClose).ret, s2.fd, ?_, g0, rfl, ?_, ?_⟩
    · rw [register_trace, gtrace, gkq]
      simp [closefdEvents, wait]
    · intro e he
      simp only [List.mem_cons, List.mem_singleton, List.not_mem_nil, or_false] at he
      rcases he with rfl | rfl <;> rfl
    · intro e he
      rcases List.mem_append.1 he with he | he
      · split at he
        · simp only [List.mem_singleton] at he
          subst he
          rfl
        · simp at he
      · exact gseg e he
  · rw [waitAndDispatch_event env s htimeout herror] at hrun
    obtain ⟨k1, k2, _, k4, _, _, k7, k8⟩ := spawn_running env _ _ s1 hrun
    have hfd1 : s1.fd ≠ -1 := by
      rw [k1]
      exact hfd
    rw [if_pos hfd1] at gtrace
    refine ⟨changeLines env (wait env s).2.1 ++
        spawnEvents env (wait env s).2.1 s.nFork s.nExec,
      (if (env.closeR s.nClose).ret = -1 then
        [Event.syslog Priority.LOG_WARNING
          ("Unable to close fd " ++ toString s.fd ++ ": " ++
            env.strerror (env.closeR s.nClose).errno)]
      else []) ++ seg,
      (env.closeR s.nClose).ret, s2.fd, ?_, g0, rfl, ?_, ?_⟩
    · rw [register_trace, gtrace, gkq, k7, k1, k2, k4]
      simp [closefdEvents, wait]
    · intro e he
      rcases List.mem_append.1 he with he | he
      · exact changeLines_neutral env _ e he
      · exact spawnEvents_neutral env _ _ _ e he
    · intro e he
      rcases List.mem_append.1 he with he | he
      · split at he
        · simp only [List.mem_singleton] at he
          subst he
          rfl
        · simp at he
      · exact gseg e he

/-- The calls from a wait that does not time out to the next registration, when
no handle is open during the wait (the registration before it had failed). -/
theorem refresh_when_no_handle (env : Env) (s s1 s2 : St) (fuel : Nat)
    (hfd : s.fd = -1)
    (hret : (env.waitR s.nWait).ret ≠ 0)
    (hrun : waitAndDispatch env s = Outcome.running s1)
    (hacq : acquire env fuel s1 = some s2) :
    ∃ before between h,
      (register env s2).trace =
        s.trace ++ Event.keventWait s.kq KQTIME (env.waitR s.nWait).ret :: before ++
          between ++
          Event.openPath env.path h :: registerEvents env s.kq h s2.nAdd s2.nClose ∧
      0 ≤ h ∧ s2.fd = h ∧
      (∀ e ∈ before, e.isOpen = false ∧ e.isAdd = false) ∧
      (∀ e ∈ between, e.isRetry = true) := by
  have htimeout : (wait env s).1 ≠ 0 := hret
  obtain ⟨g0, gkq, _, _, seg, gtrace, gseg⟩ := acquire_some env fuel s1 s2 hacq
  by_cases herror : EV_ERROR &&& (wait env s).2.1.flags ≠ 0 ∨ (wait env s).1 = -1
  · rw [waitAndDispatch_error env s htimeout herror, Outcome.running.injEq] at hrun
    subst hrun
    simp only [ne_eq, not_true_eq_false, if_false, List.append_nil] at gtrace
    refine ⟨[Event.syslog Priority.LOG_WARNING
        ("Sleeping " ++ toString SLEEPTIME ++ "s due to an error waiting for a change in " ++
          env.path ++ ": " ++ env.strerror (wait env s).2.2.errno),
        Event.sleep SLEEPTIME] ++ closefdEvents env s.fd s.nClose,
      seg, s2.fd, ?_, g0, rfl, ?_, gseg⟩
    · rw [register_trace, gtrace, gkq]
      simp [wait]
    · intro e he
      rcases List.mem_append.1 he with he | he
      · simp only [List.mem_cons, List.mem_singleton, List.not_mem_nil, or_false] at he
        rcases he with rfl | rfl <;> exact ⟨rfl, rfl⟩
      · unfold closefdEvents at he
        simp only [List.mem_cons] at he
        rcases he with rfl | he
        · exact ⟨rfl, rfl⟩
        · split at he
          · simp only [List.mem_singleton] at he
            subst he
            exact ⟨rfl, rfl⟩
          · simp at he
  · rw [waitAndDispatch_event env s htimeout herror] at hrun
    obtain ⟨k1, k2, _, k4, _, _, k7, k8⟩ := spawn_running env _ _ s1 hrun
    have hfd1 : ¬ s1.fd ≠ -1 := by
      rw [k1]
      simpa using hfd
    rw [if_neg hfd1] at gtrace
    refine ⟨changeLines env (wait env s).2.1 ++
        spawnEvents env (wait env s).2.1 s.nFork s.nExec,
      seg, s2.fd, ?_, g0, rfl, ?_, gseg⟩
    · rw [register_trace, gtrace, gkq, k7, k2]
      simp [wait]
    · intro e he
      have hn : e.isNeutral = true := by
        rcases List.mem_append.1 he with he | he
        · exact changeLines_neutral env _ e he
        · exact spawnEvents_neutral env _ _ _ e he
      clear he k8 gseg
      cases e <;> simp_all [Event.isNeutral, Event.isOpen, Event.isAdd]

/-! ## The handle variable during `open` -/

/-- Whenever `open_or_sleep` returns, it has noted the value of the variable `fd`
of `main` once for each call of `open` it made. -/
theorem open_or_sleep_observed (env : Env) (path : String) :
    ∀ (fuel : Nat) (s : St) (h : Int) (s1 : St),
      open_or_sleep env path fuel s = some (h, s1) →
      ∃ k, s1.fdAtOpen = s.fdAtOpen ++ List.replicate k s.fd ∧
        s1.trace.countP Event.isOpen = s.trace.countP Event.isOpen + k := by
  intro fuel
  induction fuel with
  | zero => intro s h s1 hs; simp [open_or_sleep] at hs
  | succ f ih =>
    intro s h s1 hs
    unfold open_or_sleep at hs
    simp only at hs
    by_cases h1 : (env.openR s.nOpen).ret = -1
    · rw [if_pos h1] at hs
      obtain ⟨k, g1, g2⟩ := ih _ h s1 hs
      refine ⟨k + 1, ?_, ?_⟩
      · rw [g1]
        simp [sleep, syslog, List.replicate_succ]
      · rw [g2]
        simp [sleep, syslog, List.countP_cons, Event.isOpen]
        omega
    · rw [if_neg h1] at hs
      by_cases h2 : (env.openR s.nOpen).ret < 0
      · rw [if_pos h2] at hs
        obtain ⟨k, g1, g2⟩ := ih _ h s1 hs
        refine ⟨k + 1, ?_, ?_⟩
        · rw [g1]
          simp [List.replicate_succ]
        · rw [g2]
          simp [List.countP_cons, Event.isOpen]
          omega
      · rw [if_neg h2] at hs
        simp only [Option.some.injEq, Prod.mk.injEq] at hs
        obtain ⟨_, rfl⟩ := hs
        exact ⟨1, by simp, by simp [List.countP_cons, Event.isOpen]⟩

theorem closefdEvents_no_open (env : Env) (fd : Int) (k : Nat) :
    (closefdEvents env fd k).countP Event.isOpen = 0 := by
  unfold closefdEvents
  by_cases h : (env.closeR k).ret = -1 <;> simp [h, List.countP_cons, Event.isOpen]

theorem registerEvents_no_open (env : Env) (kq fd : Int) (ka kc : Nat) :
    (registerEvents env kq fd ka kc).countP Event.isOpen = 0 := by
  unfold registerEvents
  by_cases h : (env.addR ka).ret = -1
  · simp [h, List.countP_cons, Event.isOpen, closefdEvents_no_open]
  · simp [h, List.countP_cons, Event.isOpen]

theorem neutral_no_open (t : List Event) (h : ∀ e ∈ t, e.isNeutral = true) :
    t.countP Event.isOpen = 0 :=
  countP_eq_zero_of_forall _ _ t h
    (by intro e he; cases e <;> simp_all [Event.isNeutral, Event.isOpen])

theorem obs_acquire (env : Env) (fuel : Nat) (s s2 : St) (hinv : OpenInv s)
    (h : acquire env fuel s = some s2) : OpenInv s2 := by
  obtain ⟨hv, hl⟩ := hinv
  unfold acquire at h
  simp only at h
  cases ho : open_or_sleep env env.path fuel (if s.fd ≠ -1 then closefd env s else s) with
  | none => rw [ho] at h; simp at h
  | some p =>
    obtain ⟨fd, s1⟩ := p
    rw [ho] at h
    simp only [Option.some.injEq] at h
    subst h
    obtain ⟨k, g1, g2⟩ := open_or_sleep_observed env env.path fuel _ fd s1 ho
    have hfd : (if s.fd ≠ -1 then closefd env s else s).fd = -1 := by
      by_cases hfd : s.fd = -1
      · simp [hfd]
      · simp [hfd, closefd_eq]
    have hobs : (if s.fd ≠ -1 then closefd env s else s).fdAtOpen = s.fdAtOpen := by
      by_cases hfd : s.fd = -1
      · simp [hfd]
      · simp [hfd, closefd_eq]
    have htr : (if s.fd ≠ -1 then closefd env s else s).trace.countP Event.isOpen =
        s.trace.countP Event.isOpen := by
      by_cases hfd : s.fd = -1
      · simp [hfd]
      · simp [hfd, closefd_eq, closefdEvents_no_open]
    rw [hfd, hobs] at g1
    rw [htr] at g2
    refine ⟨?_, ?_⟩
    · intro v hm
      simp only [g1, List.mem_append, List.mem_replicate] at hm
      rcases hm with hm | hm
      · exact hv v hm
      · exact hm.2
    · simp only [g1, g2, List.length_append, List.length_replicate, hl]

theorem register_observed (env : Env) (s : St) :
    (register env s).fdAtOpen = s.fdAtOpen := by
  unfold register
  by_cases h : (env.addR s.nAdd).ret = -1
  · simp [h, sleep, closefd_eq, syslog]
  · simp [h]

theorem obs_register (env : Env) (s : St) (hinv : OpenInv s) : OpenInv (register env s) := by
  obtain ⟨hv, hl⟩ := hinv
  unfold OpenInv
  rw [register_observed, register_trace, List.countP_append, registerEvents_no_open]
  exact ⟨hv, by simpa using hl⟩

theorem foldl_syslog_observed (env : Env) :
    ∀ (l : List Nat) (t : St),
      (l.foldl
        (fun (t : St) (i : Nat) =>
          syslog { t with fd := (i : Int) } Priority.LOG_WARNING
            (toString i ++ ": " ++ env.arg i)) t).fdAtOpen = t.fdAtOpen := by
  intro l
  induction l with
  | nil => intro t; rfl
  | cons i l ih =>
    intro t
    rw [List.foldl_cons, ih]
    simp [syslog]

theorem logArguments_observed (env : Env) (s : St) :
    (logArguments env s).fdAtOpen = s.fdAtOpen := by
  unfold logArguments
  simp only [foldl_syslog_observed]

theorem spawn_observed (env : Env) (ev : Kevent) (s : St) :
    (spawn env ev s).state.fdAtOpen = s.fdAtOpen := by
  unfold spawn
  by_cases hc : WATCHED &&& ev.fflags ≠ 0 ∧ 3 ≤ env.argc
  · rw [if_pos hc]
    by_cases h0 : (env.forkR s.nFork).ret = 0
    · simp only [h0, if_true]
      cases hx : env.execR s.nExec with
      | none => simp [Outcome.state]
      | some e => simp [Outcome.state, logArguments_observed, syslog]
    · by_cases h1 : (env.forkR s.nFork).ret = -1
      · simp [h0, h1, Outcome.state, syslog]
      · simp [h0, h1, Outcome.state]
  · rw [if_neg hc]
    simp [Outcome.state]

theorem obs_waitAndDispatch (env : Env) (s : St) (hinv : OpenInv s) :
    OpenInv (waitAndDispatch env s).state := by
  obtain ⟨hv, hl⟩ := hinv
  by_cases htimeout : (wait env s).1 = 0
  · have h0 : (env.waitR s.nWait).ret = 0 := htimeout
    rw [waitAndDispatch_timeout env s h0]
    exact ⟨hv, by simpa [Outcome.state, List.countP_cons, Event.isOpen] using hl⟩
  · by_cases herror : EV_ERROR &&& (wait env s).2.1.flags ≠ 0 ∨ (wait env s).1 = -1
    · rw [waitAndDispatch_error env s htimeout herror]
      exact ⟨hv, by
        simpa [Outcome.state, List.countP_cons, Event.isOpen, closefdEvents_no_open] using hl⟩
    · rw [waitAndDispatch_event env s htimeout herror]
      unfold OpenInv
      rw [spawn_observed, spawn_trace, List.countP_append,
        neutral_no_open _ (spawnEvents_neutral env _ _ _)]
      refine ⟨hv, ?_⟩
      simp only [List.countP_append, List.countP_cons, Event.isOpen,
        neutral_no_open _ (changeLines_neutral env (wait env s).2.1)]
      simpa using hl

theorem obs_body (env : Env) (fuel : Nat) (s : St) (o : Outcome) (hinv : OpenInv s)
    (h : body env fuel s = some o) : OpenInv o.state := by
  unfold body at h
  cases ha : acquire env fuel s with
  | none => simp [ha] at h
  | some s2 =>
    rw [ha] at h
    simp only [Option.some.injEq] at h
    subst h
    exact obs_waitAndDispatch env _ (obs_register env s2 (obs_acquire env fuel s s2 hinv ha))

theorem obs_loop (env : Env) (fuel : Nat) :
    ∀ (iters : Nat) (s : St) (o : Outcome), OpenInv s → loop env fuel iters s = some o →
      OpenInv o.state := by
  intro iters
  induction iters with
  | zero =>
    intro s o hinv h
    simp only [loop, Option.some.injEq] at h
    subst h
    exact hinv
  | succ n ih =>
    intro s o hinv h
    unfold loop at h
    cases hb : body env fuel s with
    | none => simp [hb] at h
    | some o1 =>
      have hbody := obs_body env fuel s o1 hinv hb
      rw [hb] at h
      cases o1 with
      | running s1 => exact ih s1 o hbody h
      | exited c s1 =>
        simp only [Option.some.injEq] at h
        subst h
        exact hbody
      | replaced s1 =>
        simp only [Option.some.injEq] at h
        subst h
        exact hbody

theorem obs_startup (env : Env) :
    (∀ s, startup env = Sum.inl s → OpenInv s) ∧
      (∀ o, startup env = Sum.inr o → OpenInv o.state) := by
  unfold startup
  simp only
  by_cases h2 : env.argc < 2
  · rw [if_pos h2]
    refine ⟨by intro s hs; simp at hs, ?_⟩
    intro o ho
    simp only [Sum.inr.injEq] at ho
    subst ho
    simp [OpenInv, Outcome.state, usage, St.start, List.countP_cons, Event.isOpen]
  · rw [if_neg h2]
    by_cases hk : env.kqueueR.ret = -1
    · rw [if_pos hk]
      refine ⟨by intro s hs; simp at hs, ?_⟩
      intro o ho
      simp only [Sum.inr.injEq] at ho
      subst ho
      simp [OpenInv, Outcome.state, syslog, St.start, List.countP_cons, Event.isOpen]
    · rw [if_neg hk]
      refine ⟨?_, by intro o ho; simp at ho⟩
      intro s hs
      simp only [Sum.inl.injEq] at hs
      subst hs
      simp [OpenInv, St.start, List.countP_cons, Event.isOpen]

/-! ## The claims -/

/-- C6: when the first `n` calls of `open` return `-1` and the next one returns
a descriptor `h ≥ 0`, `open_or_sleep` (given room for more than `n` attempts)
returns exactly `h`; the calls it made are `n` rounds of a failed `open`, a
warning and `sleep(SLEEPTIME)`, followed by the successful `open`: `n + 1`
calls of `open`, `n` warnings, `n` sleeps, each of `SLEEPTIME` seconds, and
nothing else; for `n = 0` the only call is the successful `open`. -/
theorem open_or_sleep_retries_until_success (env : Env) (path : String) (s : St)
    (n : Nat) (h : Int) (fuel : Nat)
    (hfail : ∀ i, i < n → (env.openR (s.nOpen + i)).ret = -1)
    (hok : (env.openR (s.nOpen + n)).ret = h) (hh : 0 ≤ h) (hfuel : n < fuel) :
    ∃ s1 calls,
      open_or_sleep env path fuel s = some (h, s1) ∧
      s1.trace = s.trace ++ calls ∧
      calls = retryEvents env path s.nOpen n ++ [Event.openPath path h] ∧
      calls.countP Event.isOpen = n + 1 ∧
      calls.countP (Event.isLog Priority.LOG_WARNING) = n ∧
      calls.countP Event.isSleep = n ∧
      (∀ e ∈ calls, e.isSleep = true → e = Event.sleep SLEEPTIME) ∧
      calls.length = 3 * n + 1 ∧
      (n = 0 → calls = [Event.openPath path h]) := by
  obtain ⟨h1, h2, h3, h4, h5⟩ := retryEvents_counts env path n s.nOpen
  refine ⟨_, _, open_or_sleep_eq env path h hh n fuel s hfail hok hfuel, ?_, rfl,
    ?_, ?_, ?_, ?_, ?_, ?_⟩
  · simp [List.append_assoc]
  · simp [h1, Event.isOpen]
  · simp [h2, Event.isLog]
  · simp [h3, Event.isSleep]
  · intro e he hs
    rcases List.mem_append.1 he with he | he
    · exact h5 e he hs
    · simp only [List.mem_singleton] at he
      subst he
      simp [Event.isSleep] at hs
  · simp [h4]
  · rintro rfl
    simp [retryEvents]

/-- C6, at an instance: `open` fails twice with `ENOENT`, then returns 5. -/
theorem open_or_sleep_retries_until_success_witness :
    ((∀ i, i < 2 → (envRetry.openR (atLoopTop.nOpen + i)).ret = -1) ∧
      (envRetry.openR (atLoopTop.nOpen + 2)).ret = 5) ∧
    ∃ s1 calls,
      open_or_sleep envRetry "/tmp/f" 3 atLoopTop = some (5, s1) ∧
      s1.trace = atLoopTop.trace ++ calls ∧
      calls = retryEvents envRetry "/tmp/f" atLoopTop.nOpen 2 ++ [Event.openPath "/tmp/f" 5] ∧
      calls.countP Event.isOpen = 2 + 1 ∧
      calls.countP (Event.isLog Priority.LOG_WARNING) = 2 ∧
      calls.countP Event.isSleep = 2 ∧
      (∀ e ∈ calls, e.isSleep = true → e = Event.sleep SLEEPTIME) ∧
      calls.length = 3 * 2 + 1 ∧
      (2 = 0 → calls = [Event.openPath "/tmp/f" 5]) :=
  ⟨by decide,
    open_or_sleep_retries_until_success envRetry "/tmp/f" atLoopTop 2 5 3 (by decide)
      (by decide) (by decide) (by decide)⟩

/-- C3 (the code at a failing input): `sigchange /tmp/f` receives one event with
the flags deleted and written set.  The log lines for the event are
"/tmp/f was deleted" twice (line 161, then `CC(NOTE_DELETE, ...)` on line 163)
and "/tmp/f was written" once: three lines for two flags, where one line per
flag is the list of two lines given by `oneLinePerFlag`. -/
theorem delete_logged_twice :
    (main envDeleted 1 1).map (fun o => o.state.trace) =
      some [Event.signalIgnoreChild, Event.openlog "sigchange", Event.kqueue 3,
        Event.openPath "/tmp/f" 4, Event.keventAdd 3 4 WATCHED 0,
        Event.keventWait 3 KQTIME 1,
        Event.syslog Priority.LOG_INFO "/tmp/f was deleted",
        Event.syslog Priority.LOG_INFO "/tmp/f was deleted",
        Event.syslog Priority.LOG_INFO "/tmp/f was written"] ∧
    oneLinePerFlag "/tmp/f" (NOTE_DELETE ||| NOTE_WRITE) =
      [Event.syslog Priority.LOG_INFO "/tmp/f was deleted",
        Event.syslog Priority.LOG_INFO "/tmp/f was written"] := by
  decide

/-- C4: for an event that is neither a timeout nor an error, `fork` is called
exactly once when one of the six flags is set and `argc ≥ 3`, and not at all
otherwise.  In the first case the process in which `fork` returned 0 (the
child) calls `execvp(argv[2], argv + 2)` next, and any other process makes no
`execvp` call and stays in the loop.  In the second case (so whenever
`argc = 2`) the only calls are the log lines for the flags, all of severity
info, which end with one line per flag set. -/
theorem spawn_decision (env : Env) (s : St) (ret : Int) (ev : Kevent)
    (htimeout : ret ≠ 0) (herror : ¬ (EV_ERROR &&& ev.flags ≠ 0 ∨ ret = -1)) :
    ∃ calls,
      (dispatch env ret ev s).state.trace = s.trace ++ changeLines env ev ++ calls ∧
      (changeLines env ev ++ calls).countP Event.isFork =
        (if (∃ c ∈ categories, ev.fflags &&& c.1 ≠ 0) ∧ 3 ≤ env.argc then 1 else 0) ∧
      ((∃ c ∈ categories, ev.fflags &&& c.1 ≠ 0) ∧ 3 ≤ env.argc →
        ∃ rest, calls = Event.fork (env.forkR s.nFork).ret :: rest ∧
          ((env.forkR s.nFork).ret = 0 →
            ∃ rest1, rest = Event.execvp (env.arg 2) (env.argv.drop 2) :: rest1) ∧
          ((env.forkR s.nFork).ret ≠ 0 →
            rest.countP Event.isExec = 0 ∧ ∃ s1, dispatch env ret ev s = Outcome.running s1)) ∧
      (¬ ((∃ c ∈ categories, ev.fflags &&& c.1 ≠ 0) ∧ 3 ≤ env.argc) →
        calls = [] ∧
        dispatch env ret ev s =
          Outcome.running { s with trace := s.trace ++ changeLines env ev }) ∧
      (env.argc = 2 → ¬ ((∃ c ∈ categories, ev.fflags &&& c.1 ≠ 0) ∧ 3 ≤ env.argc)) ∧
      (∀ e ∈ changeLines env ev, e.isLog Priority.LOG_INFO = true) ∧
      oneLinePerFlag env.path ev.fflags <:+ changeLines env ev := by
  have hlines : (changeLines env ev).countP Event.isFork = 0 :=
    countP_eq_zero_of_forall _ _ _ (changeLines_info env ev)
      (by intro e he; cases e <;> simp_all [Event.isLog, Event.isFork])
  refine ⟨spawnEvents env ev s.nFork s.nExec, ?_, ?_, ?_, ?_, ?_, changeLines_info env ev, ?_⟩
  · rw [dispatch_event env ret ev s htimeout herror, spawn_trace]
  · rw [List.countP_append, hlines]
    unfold spawnEvents
    by_cases hc : WATCHED &&& ev.fflags ≠ 0 ∧ 3 ≤ env.argc
    · have hc1 : (∃ c ∈ categories, ev.fflags &&& c.1 ≠ 0) ∧ 3 ≤ env.argc :=
        ⟨(watched_iff _).1 hc.1, hc.2⟩
      rw [if_pos hc, if_pos hc1]
      by_cases h0 : (env.forkR s.nFork).ret = 0
      · rw [if_pos h0]
        cases hx : env.execR s.nExec with
        | none => simp [List.countP_cons, Event.isFork]
        | some e =>
          have : (argumentLines env).countP Event.isFork = 0 := by
            rw [List.countP_eq_zero]
            intro a ha
            unfold argumentLines at ha
            simp only [List.mem_map] at ha
            obtain ⟨i, _, rfl⟩ := ha
            simp [Event.isFork]
          simp [List.countP_cons, Event.isFork, this]
      · by_cases h1 : (env.forkR s.nFork).ret = -1
        · rw [if_neg h0, if_pos h1]
          simp [List.countP_cons, Event.isFork]
        · rw [if_neg h0, if_neg h1]
          simp [List.countP_cons, Event.isFork]
    · have hc1 : ¬ ((∃ c ∈ categories, ev.fflags &&& c.1 ≠ 0) ∧ 3 ≤ env.argc) :=
        fun h => hc ⟨(watched_iff _).2 h.1, h.2⟩
      rw [if_neg hc, if_neg hc1]
      simp
  · intro hc
    rw [← watched_iff] at hc
    unfold spawnEvents
    rw [if_pos hc]
    refine ⟨_, rfl, ?_, ?_⟩
    · intro h0
      rw [if_pos h0]
      exact ⟨_, rfl⟩
    · intro h0
      rw [if_neg h0]
      constructor
      · by_cases h1 : (env.forkR s.nFork).ret = -1
        · rw [if_pos h1]; simp [List.countP_cons, Event.isExec]
        · rw [if_neg h1]; simp
      · rw [dispatch_event env ret ev s htimeout herror]
        unfold spawn
        rw [if_pos hc, if_neg h0]
        by_cases h1 : (env.forkR s.nFork).ret = -1
        · rw [if_pos h1]; exact ⟨_, rfl⟩
        · rw [if_neg h1]; exact ⟨_, rfl⟩
  · intro hc
    rw [← watched_iff] at hc
    constructor
    · unfold spawnEvents
      rw [if_neg hc]
    · rw [dispatch_event env ret ev s htimeout herror]
      unfold spawn
      rw [if_neg hc]
  · intro h2 hc
    omega
  · rw [changeLines_eq]
    exact List.suffix_append _ _

/-- C4, at an instance: `sigchange /tmp/f reload -v` receives a written event;
seen from the child of the `fork`. -/
theorem spawn_decision_witness :
    ((1 : Int) ≠ 0 ∧ ¬ (EV_ERROR &&& (Kevent.mk 0 NOTE_WRITE).flags ≠ 0 ∨ (1 : Int) = -1)) ∧
    ∃ calls,
      (dispatch envExecFails 1 ⟨0, NOTE_WRITE⟩ armed).state.trace =
        armed.trace ++ changeLines envExecFails ⟨0, NOTE_WRITE⟩ ++ calls ∧
      (changeLines envExecFails ⟨0, NOTE_WRITE⟩ ++ calls).countP Event.isFork =
        (if (∃ c ∈ categories, (Kevent.mk 0 NOTE_WRITE).fflags &&& c.1 ≠ 0) ∧
          3 ≤ envExecFails.argc then 1 else 0) ∧
      ((∃ c ∈ categories, (Kevent.mk 0 NOTE_WRITE).fflags &&& c.1 ≠ 0) ∧
          3 ≤ envExecFails.argc →
        ∃ rest, calls = Event.fork (envExecFails.forkR armed.nFork).ret :: rest ∧
          ((envExecFails.forkR armed.nFork).ret = 0 →
            ∃ rest1, rest =
              Event.execvp (envExecFails.arg 2) (envExecFails.argv.drop 2) :: rest1) ∧
          ((envExecFails.forkR armed.nFork).ret ≠ 0 →
            rest.countP Event.isExec = 0 ∧
              ∃ s1, dispatch envExecFails 1 ⟨0, NOTE_WRITE⟩ armed = Outcome.running s1)) ∧
      (¬ ((∃ c ∈ categories, (Kevent.mk 0 NOTE_WRITE).fflags &&& c.1 ≠ 0) ∧
          3 ≤ envExecFails.argc) →
        calls = [] ∧
        dispatch envExecFails 1 ⟨0, NOTE_WRITE⟩ armed =
          Outcome.running
            { armed with trace := armed.trace ++ changeLines envExecFails ⟨0, NOTE_WRITE⟩ }) ∧
      (envExecFails.argc = 2 →
        ¬ ((∃ c ∈ categories, (Kevent.mk 0 NOTE_WRITE).fflags &&& c.1 ≠ 0) ∧
          3 ≤ envExecFails.argc)) ∧
      (∀ e ∈ changeLines envExecFails ⟨0, NOTE_WRITE⟩, e.isLog Priority.LOG_INFO = true) ∧
      oneLinePerFlag envExecFails.path (Kevent.mk 0 NOTE_WRITE).fflags <:+
        changeLines envExecFails ⟨0, NOTE_WRITE⟩ :=
  ⟨by decide, spawn_decision envExecFails armed 1 ⟨0, NOTE_WRITE⟩ (by decide) (by decide)⟩

/-- C5 (counterexample): `sigchange /tmp/f reload -v` receives a written event
and `fork` fails.  The only line logged for the failure is the error line with
the reason; no line lists the arguments `reload` and `-v`. -/
theorem fork_failure_logs_no_arguments :
    (main envForkFails 1 1).map (fun o => o.state.trace) =
      some [Event.signalIgnoreChild, Event.openlog "sigchange", Event.kqueue 3,
        Event.openPath "/tmp/f" 4, Event.keventAdd 3 4 WATCHED 0,
        Event.keventWait 3 KQTIME 1,
        Event.syslog Priority.LOG_INFO "/tmp/f was written",
        Event.fork (-1),
        Event.syslog Priority.LOG_ERR
          "Command not executed because forking failed: Resource temporarily unavailable"] := by
  decide

/-- C5 (amended): for an event that triggers a spawn, (1) when `fork` returns
`-1` the watcher logs one error line with the reason and nothing else, and
stays in the loop with its handle variable unchanged; (2) when `execvp`
returns in the child, the child logs one error line with the reason, then one
warning line for each argument `argv[2..argc-1]`, and the child ends with
status `-2`; (3) the parent of a successful `fork` logs nothing and stays in the
loop. -/
theorem spawn_failure_reported (env : Env) (s : St) (ret : Int) (ev : Kevent)
    (htimeout : ret ≠ 0) (herror : ¬ (EV_ERROR &&& ev.flags ≠ 0 ∨ ret = -1))
    (hspawn : (∃ c ∈ categories, ev.fflags &&& c.1 ≠ 0) ∧ 3 ≤ env.argc) :
    ((env.forkR s.nFork).ret = -1 →
      ∃ s1, dispatch env ret ev s = Outcome.running s1 ∧ s1.fd = s.fd ∧
        s1.trace = s.trace ++ changeLines env ev ++
          [Event.fork (-1),
            Event.syslog Priority.LOG_ERR
              ("Command not executed because forking failed: " ++
                env.strerror (env.forkR s.nFork).errno)]) ∧
    ((env.forkR s.nFork).ret = 0 → ∀ e, env.execR s.nExec = some e →
      ∃ s1, dispatch env ret ev s = Outcome.exited (-2) s1 ∧
        s1.trace = s.trace ++ changeLines env ev ++
          [Event.fork 0, Event.execvp (env.arg 2) (env.argv.drop 2),
            Event.syslog Priority.LOG_ERR
              ("Unable to execute command (arguments to) follow: " ++ env.strerror e)] ++
          argumentLines env) ∧
    ((env.forkR s.nFork).ret ≠ 0 → (env.forkR s.nFork).ret ≠ -1 →
      ∃ s1, dispatch env ret ev s = Outcome.running s1 ∧ s1.fd = s.fd ∧
        s1.trace = s.trace ++ changeLines env ev ++ [Event.fork (env.forkR s.nFork).ret]) ∧
    (argumentLines env).length = env.argc - 2 ∧
    (∀ i, 2 ≤ i → i < env.argc →
      Event.syslog Priority.LOG_WARNING (toString i ++ ": " ++ env.arg i) ∈
        argumentLines env) := by
  have hc : WATCHED &&& ev.fflags ≠ 0 ∧ 3 ≤ env.argc := ⟨(watched_iff _).2 hspawn.1, hspawn.2⟩
  rw [dispatch_event env ret ev s htimeout herror]
  unfold spawn
  rw [if_pos hc]
  refine ⟨?_, ?_, ?_, ?_, ?_⟩
  · intro h1
    have h0 : ¬ (env.forkR s.nFork).ret = 0 := by omega
    rw [if_neg h0, if_pos h1]
    exact ⟨_, rfl, rfl, by simp [syslog, h1]⟩
  · intro h0 e he
    rw [if_pos h0]
    simp only [he]
    exact ⟨_, rfl, by simp [logArguments_trace, syslog, h0]⟩
  · intro h0 h1
    rw [if_neg h0, if_neg h1]
    exact ⟨_, rfl, rfl, by simp⟩
  · simp [argumentLines]
  · intro i h2 hi
    unfold argumentLines
    refine List.mem_map.2 ⟨i, ?_, rfl⟩
    rw [List.mem_range'_1]
    omega

/-- C5 (amended), at an instance: `sigchange /tmp/f reload -v` receives a
written event; in the child `execvp` fails with `ENOENT`. -/
theorem spawn_failure_reported_witness :
    ((1 : Int) ≠ 0 ∧ (envExecFails.forkR armed.nFork).ret = 0 ∧
      envExecFails.execR armed.nExec = some 2) ∧
    ∃ s1, dispatch envExecFails 1 ⟨0, NOTE_WRITE⟩ armed = Outcome.exited (-2) s1 ∧
      s1.trace = armed.trace ++ changeLines envExecFails ⟨0, NOTE_WRITE⟩ ++
        [Event.fork 0, Event.execvp (envExecFails.arg 2) (envExecFails.argv.drop 2),
          Event.syslog Priority.LOG_ERR
            ("Unable to execute command (arguments to) follow: " ++
              envExecFails.strerror 2)] ++
        argumentLines envExecFails :=
  ⟨by decide,
    (spawn_failure_reported envExecFails armed 1 ⟨0, NOTE_WRITE⟩ (by decide) (by decide)
      (by decide)).2.1 (by decide) 2 (by decide)⟩

/-- C1 (counterexample): `sigchange /tmp/f` with a wait that times out.  After
the heartbeat line the loop closes descriptor 4, opens the path again and
registers again before it enters the next wait. -/
theorem heartbeat_reopens_and_reregisters :
    (main envQuiet 1 2).map (fun o => o.state.trace) =
      some [Event.signalIgnoreChild, Event.openlog "sigchange", Event.kqueue 3,
        Event.openPath "/tmp/f" 4, Event.keventAdd 3 4 WATCHED 0,
        Event.keventWait 3 KQTIME 0,
        Event.syslog Priority.LOG_INFO "Still waiting for changes to /tmp/f",
        Event.close 4 0,
        Event.openPath "/tmp/f" 4, Event.keventAdd 3 4 WATCHED 0,
        Event.keventWait 3 KQTIME 0,
        Event.syslog Priority.LOG_INFO "Still waiting for changes to /tmp/f"] := by
  decide

/-- C1 (amended): when the wait returns 0 the loop logs exactly one info line
"Still waiting for changes to <path>", leaves the handle variable unchanged
and goes back to the top of the loop.  There, before the next wait, it closes
the handle when it holds one, acquires a handle again with `open_or_sleep`
(here: `n` failing calls of `open`, then one that returns `h ≥ 0`) and
registers the new handle `h`. -/
theorem heartbeat_then_rearm (env : Env) (s : St) (n : Nat) (h : Int) (fuel : Nat)
    (htimeout : (env.waitR s.nWait).ret = 0)
    (hfail : ∀ i, i < n → (env.openR (s.nOpen + i)).ret = -1)
    (hok : (env.openR (s.nOpen + n)).ret = h) (hh : 0 ≤ h) (hfuel : n < fuel) :
    ∃ s1 s2,
      waitAndDispatch env s = Outcome.running s1 ∧
      s1.trace = s.trace ++
        [Event.keventWait s.kq KQTIME 0,
          Event.syslog Priority.LOG_INFO ("Still waiting for changes to " ++ env.path)] ∧
      s1.fd = s.fd ∧
      acquire env fuel s1 = some s2 ∧
      body env fuel s1 = some (waitAndDispatch env (register env s2)) ∧
      (register env s2).trace = s1.trace ++
        (if s.fd ≠ -1 then closefdEvents env s.fd s.nClose else []) ++
        retryEvents env env.path s.nOpen n ++ [Event.openPath env.path h] ++
        registerEvents env s.kq h s.nAdd (s.nClose + (if s.fd ≠ -1 then 1 else 0)) := by
  obtain ⟨s2, hacq, hfd, hkq, hadd, hclose, htrace⟩ :=
    acquire_eq env
      { s with
        nWait := s.nWait + 1
        trace := s.trace ++ [Event.keventWait s.kq KQTIME 0,
          Event.syslog Priority.LOG_INFO ("Still waiting for changes to " ++ env.path)] }
      n fuel h hh hfail hok hfuel
  refine ⟨_, s2, waitAndDispatch_timeout env s htimeout, rfl, rfl, hacq,
    body_eq env fuel _ s2 hacq, ?_⟩
  rw [register_trace, htrace, hfd, hkq, hadd, hclose]

/-- C1 (amended), at an instance: the first timeout of `sigchange /tmp/f`. -/
theorem heartbeat_then_rearm_witness :
    ((envQuiet.waitR armed.nWait).ret = 0 ∧ (envQuiet.openR (armed.nOpen + 0)).ret = 4) ∧
    ∃ s1 s2,
      waitAndDispatch envQuiet armed = Outcome.running s1 ∧
      s1.trace = armed.trace ++
        [Event.keventWait armed.kq KQTIME 0,
          Event.syslog Priority.LOG_INFO ("Still waiting for changes to " ++ envQuiet.path)] ∧
      s1.fd = armed.fd ∧
      acquire envQuiet 1 s1 = some s2 ∧
      body envQuiet 1 s1 = some (waitAndDispatch envQuiet (register envQuiet s2)) ∧
      (register envQuiet s2).trace = s1.trace ++
        (if armed.fd ≠ -1 then closefdEvents envQuiet armed.fd armed.nClose else []) ++
        retryEvents envQuiet envQuiet.path armed.nOpen 0 ++ [Event.openPath envQuiet.path 4] ++
        registerEvents envQuiet armed.kq 4 armed.nAdd
          (armed.nClose + (if armed.fd ≠ -1 then 1 else 0)) :=
  ⟨by decide,
    heartbeat_then_rearm envQuiet armed 0 4 1 (by decide) (by decide) (by decide) (by decide)
      (by decide)⟩

/-- C7 (counterexample): `sigchange /tmp/f`, the wait fails and the `close` that
follows fails too.  Two warnings are logged after the wait, the second by
`closefd`. -/
theorem wait_error_two_warnings :
    (main envWaitError 1 1).map (fun o => o.state.trace) =
      some [Event.signalIgnoreChild, Event.openlog "sigchange", Event.kqueue 3,
        Event.openPath "/tmp/f" 4, Event.keventAdd 3 4 WATCHED 0,
        Event.keventWait 3 KQTIME (-1),
        Event.syslog Priority.LOG_WARNING
          "Sleeping 10s due to an error waiting for a change in /tmp/f: Interrupted system call",
        Event.sleep 10,
        Event.close 4 (-1),
        Event.syslog Priority.LOG_WARNING "Unable to close fd 4: Input/output error"] := by
  decide

/-- C7 (amended): when the wait does not time out and either returns `-1` or
delivers an event with `EV_ERROR`, the loop performs, in this order, one
warning for the wait error, one `sleep(SLEEPTIME)` and one `closefd`, that is
one `close` of the handle variable followed by a further warning only when
that `close` returns `-1`; no line for a change flag is logged and no command
is spawned.  The handle variable is then `-1`, so the next pass makes no
`close`: its first call is `open`, and once `open` succeeded (here after `n`
failures) the registration of the new handle follows. -/
theorem wait_error_recovery (env : Env) (s : St) (n : Nat) (h : Int) (fuel : Nat)
    (htimeout : (wait env s).1 ≠ 0)
    (herror : EV_ERROR &&& (wait env s).2.1.flags ≠ 0 ∨ (wait env s).1 = -1)
    (hfail : ∀ i, i < n → (env.openR (s.nOpen + i)).ret = -1)
    (hok : (env.openR (s.nOpen + n)).ret = h) (hh : 0 ≤ h) (hfuel : n < fuel) :
    ∃ s1 s2,
      waitAndDispatch env s = Outcome.running s1 ∧
      s1.trace = s.trace ++
        [Event.keventWait s.kq KQTIME (wait env s).1,
          Event.syslog Priority.LOG_WARNING
            ("Sleeping " ++ toString SLEEPTIME ++ "s due to an error waiting for a change in " ++
              env.path ++ ": " ++ env.strerror (wait env s).2.2.errno),
          Event.sleep SLEEPTIME] ++ closefdEvents env s.fd s.nClose ∧
      s1.fd = -1 ∧
      acquire env fuel s1 = some s2 ∧
      body env fuel s1 = some (waitAndDispatch env (register env s2)) ∧
      (register env s2).trace = s1.trace ++
        retryEvents env env.path s.nOpen n ++ [Event.openPath env.path h] ++
        registerEvents env s.kq h s.nAdd (s.nClose + 1) := by
  obtain ⟨s2, hacq, hfd, hkq, hadd, hclose, htrace⟩ :=
    acquire_eq env
      { s with
        fd := -1
        nWait := s.nWait + 1
        nClose := s.nClose + 1
        errno := (closefd env (wait env s).2.2).errno
        trace := s.trace ++
          [Event.keventWait s.kq KQTIME (wait env s).1,
            Event.syslog Priority.LOG_WARNING
              ("Sleeping " ++ toString SLEEPTIME ++
                "s due to an error waiting for a change in " ++
                env.path ++ ": " ++ env.strerror (wait env s).2.2.errno),
            Event.sleep SLEEPTIME] ++ closefdEvents env s.fd s.nClose }
      n fuel h hh hfail hok hfuel
  refine ⟨_, s2, waitAndDispatch_error env s htimeout herror, rfl, rfl, hacq,
    body_eq env fuel _ s2 hacq, ?_⟩
  rw [register_trace, htrace, hfd, hkq, hadd, hclose]
  simp

/-- C7 (amended), at an instance: the wait of `sigchange /tmp/f` fails with
`EINTR`, and `close` fails with `EIO`. -/
theorem wait_error_recovery_witness :
    ((wait envWaitError armed).1 ≠ 0 ∧ (wait envWaitError armed).1 = -1) ∧
    ∃ s1 s2,
      waitAndDispatch envWaitError armed = Outcome.running s1 ∧
      s1.trace = armed.trace ++
        [Event.keventWait armed.kq KQTIME (wait envWaitError armed).1,
          Event.syslog Priority.LOG_WARNING
            ("Sleeping " ++ toString SLEEPTIME ++ "s due to an error waiting for a change in " ++
              envWaitError.path ++ ": " ++
              envWaitError.strerror (wait envWaitError armed).2.2.errno),
          Event.sleep SLEEPTIME] ++ closefdEvents envWaitError armed.fd armed.nClose ∧
      s1.fd = -1 ∧
      acquire envWaitError 1 s1 = some s2 ∧
      body envWaitError 1 s1 =
        some (waitAndDispatch envWaitError (register envWaitError s2)) ∧
      (register envWaitError s2).trace = s1.trace ++
        retryEvents envWaitError envWaitError.path armed.nOpen 0 ++
        [Event.openPath envWaitError.path 4] ++
        registerEvents envWaitError armed.kq 4 armed.nAdd (armed.nClose + 1) :=
  ⟨by decide,
    wait_error_recovery envWaitError armed 0 4 1 (by decide) (Or.inr (by decide)) (by decide)
      (by decide) (by decide) (by decide)⟩

/-- C10 (the code at a failing input): `sigchange /tmp/f`, the registration
fails.  The loop logs the warning, closes descriptor 4 (the handle variable
becomes `-1`), sleeps, and then enters the wait all the same: line 123 ends
the `if` without a `continue`. -/
theorem wait_entered_after_failed_registration :
    startup envAddFails = Sum.inl atLoopTop ∧
    (acquire envAddFails 1 atLoopTop).map (fun s => (register envAddFails s).fd) =
      some (-1) ∧
    (main envAddFails 1 1).map (fun o => o.state.trace) =
      some [Event.signalIgnoreChild, Event.openlog "sigchange", Event.kqueue 3,
        Event.openPath "/tmp/f" 4, Event.keventAdd 3 4 WATCHED (-1),
        Event.syslog Priority.LOG_WARNING
          "Sleeping 10s because setting watch on /tmp/f failed: Cannot allocate memory",
        Event.close 4 0,
        Event.sleep 10,
        Event.keventWait 3 KQTIME 0,
        Event.syslog Priority.LOG_INFO "Still waiting for changes to /tmp/f"] := by
  decide

/-- C2 (the code at a failing input): `sigchange /tmp/f`, the registration
fails and the wait that the loop then enters fails too.  Between the failed
registration and the next `open` there are two sleeps and two calls of
`close`, the second of them `close(-1)`. -/
theorem registration_failure_two_sleeps_two_closes :
    (main envAddFailsWaitFails 1 2).map (fun o => o.state.trace) =
      some ([Event.signalIgnoreChild, Event.openlog "sigchange", Event.kqueue 3,
        Event.openPath "/tmp/f" 4, Event.keventAdd 3 4 WATCHED (-1)] ++
        afterFailedRegistration ++
        [Event.openPath "/tmp/f" 4, Event.keventAdd 3 4 WATCHED 0,
        Event.keventWait 3 KQTIME 0,
        Event.syslog Priority.LOG_INFO "Still waiting for changes to /tmp/f"]) ∧
    afterFailedRegistration.countP Event.isSleep = 2 ∧
    afterFailedRegistration.countP Event.isClose = 2 ∧
    afterFailedRegistration.countP Event.isOpen = 0 := by
  decide

/-- C8: take a wait that does not time out, let the process stay in the loop
afterwards (it is the watcher, not the child of a `fork`), and let the next
acquisition return.  Then the calls from that wait to the next registration
are: calls among which there is no `open` and no registration, and which, when
a handle was open during the wait, end with the `close` of that handle, the
only call on a handle among them; then failed `open` calls, log lines and
sleeps; then an `open` of the path that returns a descriptor `h ≥ 0`; and at
once the registration, of `h`. -/
theorem handle_refreshed_after_event (env : Env) (s s1 s2 : St) (fuel : Nat)
    (hret : (env.waitR s.nWait).ret ≠ 0)
    (hrun : waitAndDispatch env s = Outcome.running s1)
    (hacq : acquire env fuel s1 = some s2) :
    ∃ before between h,
      (register env s2).trace =
        s.trace ++ Event.keventWait s.kq KQTIME (env.waitR s.nWait).ret :: before ++
          between ++
          Event.openPath env.path h :: registerEvents env s.kq h s2.nAdd s2.nClose ∧
      0 ≤ h ∧ s2.fd = h ∧
      (∀ e ∈ before, e.isOpen = false ∧ e.isAdd = false) ∧
      (∀ e ∈ between, e.isRetry = true) ∧
      (s.fd ≠ -1 →
        ∃ b r, before = b ++ [Event.close s.fd r] ∧ ∀ e ∈ b, e.isNeutral = true) := by
  by_cases hfd : s.fd = -1
  · obtain ⟨before, between, h, g1, g2, g3, g4, g5⟩ :=
      refresh_when_no_handle env s s1 s2 fuel hfd hret hrun hacq
    exact ⟨before, between, h, g1, g2, g3, g4, g5, fun hne => absurd hfd hne⟩
  · obtain ⟨b, between, r, h, g1, g2, g3, g4, g5⟩ :=
      refresh_when_handle_open env s s1 s2 fuel hfd hret hrun hacq
    refine ⟨b ++ [Event.close s.fd r], between, h, ?_, g2, g3, ?_, g5, fun _ => ⟨b, r, rfl, g4⟩⟩
    · rw [g1]
      simp
    · intro e he
      rcases List.mem_append.1 he with he | he
      · have hn := g4 e he
        clear he g4 g5 g1
        cases e <;> simp_all [Event.isNeutral, Event.isOpen, Event.isAdd]
      · simp only [List.mem_singleton] at he
        subst he
        exact ⟨rfl, rfl⟩

/-- C8, at an instance: the watcher `sigchange /tmp/f reload -v` receives a
written event while descriptor 4 is open, forks, closes 4 and opens the path
again before it registers. -/
theorem handle_refreshed_after_event_witness :
    ((envCommand.waitR armed.nWait).ret ≠ 0 ∧
      waitAndDispatch envCommand armed = Outcome.running afterWrite ∧
      acquire envCommand 1 afterWrite = some reacquired) ∧
    ∃ before between h,
      (register envCommand reacquired).trace =
        armed.trace ++ Event.keventWait armed.kq KQTIME (envCommand.waitR armed.nWait).ret ::
          before ++ between ++
          Event.openPath envCommand.path h ::
            registerEvents envCommand armed.kq h reacquired.nAdd reacquired.nClose ∧
      0 ≤ h ∧ reacquired.fd = h ∧
      (∀ e ∈ before, e.isOpen = false ∧ e.isAdd = false) ∧
      (∀ e ∈ between, e.isRetry = true) ∧
      (armed.fd ≠ -1 →
        ∃ b r, before = b ++ [Event.close armed.fd r] ∧ ∀ e ∈ b, e.isNeutral = true) :=
  ⟨by decide,
    handle_refreshed_after_event envCommand armed afterWrite reacquired 1 (by decide)
      (by decide) (by decide)⟩

/-- C9: along every run of `main`, however long and whatever the operating
system answers, at most one handle is open at any point (each `closefd`
counting as a release), every `open` is called while no handle is open, and
every registration names the one handle that is open then, which is the
descriptor returned by the last `open` and not closed since.  During every
call of `open` the variable `fd` of `main` holds `-1`: `fdAtOpen` notes its
value at each call of `open`, one entry per `open` in the trace, and every
entry is `-1`.  Whenever control is at the top of the loop, the variable is
`-1` exactly when no handle is open and names the open handle otherwise. -/
theorem single_handle_invariant (env : Env) (fuel iters : Nat) (o : Outcome)
    (h : main env fuel iters = some o) :
    singleHandle [] o.state.trace ∧
    (∀ v ∈ o.state.fdAtOpen, v = -1) ∧
    o.state.fdAtOpen.length = o.state.trace.countP Event.isOpen ∧
    ∀ s, o = Outcome.running s →
      held [] s.trace = (if s.fd = -1 then [] else [s.fd]) := by
  have hmain : (singleHandle [] o.state.trace ∧
      ∀ s1, o = Outcome.running s1 → HandleInv s1) ∧ OpenInv o.state := by
    unfold main at h
    cases hst : startup env with
    | inl s =>
      rw [hst] at h
      exact ⟨inv_loop env fuel iters s o ((inv_startup env).1 s hst) h,
        obs_loop env fuel iters s o ((obs_startup env).1 s hst) h⟩
    | inr o1 =>
      rw [hst] at h
      simp only [Option.some.injEq] at h
      subst h
      obtain ⟨g1, g2⟩ := (inv_startup env).2 o1 hst
      exact ⟨⟨g1, fun s1 hs1 => absurd hs1 (g2 s1)⟩, (obs_startup env).2 o1 hst⟩
  exact ⟨hmain.1.1, hmain.2.1, hmain.2.2, fun s hs => (hmain.1.2 s hs).2⟩

/-- C9, at an instance: two passes of `sigchange /tmp/f` through the loop. -/
theorem single_handle_invariant_witness :
    main envQuiet 1 2 = some (Outcome.running afterTwoHeartbeats) ∧
    singleHandle [] (Outcome.running afterTwoHeartbeats).state.trace ∧
    (∀ v ∈ (Outcome.running afterTwoHeartbeats).state.fdAtOpen, v = -1) ∧
    (Outcome.running afterTwoHeartbeats).state.fdAtOpen.length =
      (Outcome.running afterTwoHeartbeats).state.trace.countP Event.isOpen ∧
    ∀ s, Outcome.running afterTwoHeartbeats = Outcome.running s →
      held [] s.trace = (if s.fd = -1 then [] else [s.fd]) :=
  ⟨by decide, single_handle_invariant envQuiet 1 2 (Outcome.running afterTwoHeartbeats)
    (by decide)⟩

end Sigchange
